import Mathlib

/-!
Shallow embedding of the Novastar H-series API client
(`custom_components/novastar_h/api.py`) and coordinator
(`custom_components/novastar_h/coordinator.py`).

JSON values are modelled by an inductive type `JValue`; Python dicts are
association lists (`JDict`) looked up by first match (Python dicts have
unique keys, so this coincides on all states the code can build).
Python floats are modelled as rationals.  The network transport
(`_async_request`, i.e. envelope signing + HTTP + unwrapping) is modelled
as an oracle `Env`: a state-dependent function from (endpoint, payload)
to an optional response body.  Every embedded operation also returns the
ordered trace of requests it issued.
-/

/-- JSON/Python value: null, bool, int, float (as a rational), string,
list, dict.  Python `bool` is kept distinct from `int` (as in Python's
type lattice); places where Python treats bools as ints model that
explicitly. -/
inductive JValue where
  | jnull
  | jbool (b : Bool)
  | jint (n : Int)
  | jfloat (q : Rat)
  | jstr (s : String)
  | jarr (xs : List JValue)
  | jobj (fields : List (String × JValue))

/-- A Python dict with JSON values: association list, first match wins. -/
abbrev JDict := List (String × JValue)

/-- Python `dict.get(k)` as an `Option` (`none` = key absent). -/
def dget (m : JDict) (k : String) : Option JValue :=
  match m with
  | [] => none
  | (k0, v0) :: rest => if k0 = k then some v0 else dget rest k

/-- Python `dict.get(k)`, with the absent key returning Python `None`
(modelled as `JValue.jnull`, which is also how JSON null parses). -/
def py_get (m : JDict) (k : String) : JValue :=
  (dget m k).getD .jnull

/-- Python `m[k] = v`: replace the value in place if the key is present,
otherwise append the new binding at the end (insertion order). -/
def dset (m : JDict) (k : String) (v : JValue) : JDict :=
  match m with
  | [] => [(k, v)]
  | (k0, v0) :: rest => if k0 = k then (k, v) :: rest else (k0, v0) :: dset rest k v

/-- Python `{**a, **b}`: a's keys in order with b's value winning on a
shared key, followed by b's keys that are not in a, in b's order. -/
def dict_merge (a b : JDict) : JDict :=
  a.map (fun kv => (kv.1, (dget b kv.1).getD kv.2)) ++
    b.filter (fun kv => (dget a kv.1).isNone)

/-- Python truthiness of a JSON value (`bool(x)`). -/
def JValue.truthy : JValue → Bool
  | .jnull => false
  | .jbool b => b
  | .jint n => n != 0
  | .jfloat q => q != 0
  | .jstr s => !s.isEmpty
  | .jarr xs => !xs.isEmpty
  | .jobj fs => !fs.isEmpty

/-- Python `a or b` on JSON values. -/
def py_or (a b : JValue) : JValue := if a.truthy then a else b

/-- Python `isinstance(x, int)` extraction: true ints and bools both
qualify (Python's `bool` is a subclass of `int`, `True == 1`). -/
def as_py_int : JValue → Option Int
  | .jint n => some n
  | .jbool b => some (if b then 1 else 0)
  | _ => none

/-- Python `int(x)`, totalised: bools map to 0/1, floats truncate toward
zero, decimal strings parse; other values (where CPython would raise
`TypeError`/`ValueError`) are mapped to 0. -/
def py_int_d : JValue → Int
  | .jint n => n
  | .jbool b => if b then 1 else 0
  | .jfloat q => q.num.tdiv q.den
  | .jstr s =>
    if !s.isEmpty && s.data.all Char.isDigit then
      Int.ofNat (s.data.foldl (fun acc ch => acc * 10 + (ch.toNat - 48)) 0)
    else 0
  | _ => 0

/-- Python `s.isdigit()` restricted to ASCII digits (the device protocol
is ASCII-only). -/
def py_isdigit (s : String) : Bool :=
  !s.isEmpty && s.data.all Char.isDigit

/-- Python `s.strip()` is truthy (contains a non-whitespace character). -/
def py_strip_truthy (s : String) : Bool :=
  s.data.any (fun ch => !ch.isWhitespace)

/-- Lookup in an integer-keyed cache dict. -/
def iget {α : Type} (m : List (Int × α)) (i : Int) : Option α :=
  match m with
  | [] => none
  | (k0, v0) :: rest => if k0 = i then some v0 else iget rest i

/-- Assignment in an integer-keyed cache dict (replace or append). -/
def iset {α : Type} (m : List (Int × α)) (i : Int) (v : α) : List (Int × α) :=
  match m with
  | [] => [(i, v)]
  | (k0, v0) :: rest => if k0 = i then (i, v) :: rest else (k0, v0) :: iset rest i v

/-- Lexicographic comparison of strings by code point, as a boolean
(kernel-computable, unlike `String.lt`'s iterator-based instance). -/
def chars_le : List Char → List Char → Bool
  | [], _ => true
  | _ :: _, [] => false
  | c :: cs, d :: ds =>
    if c.val < d.val then true
    else if d.val < c.val then false
    else chars_le cs ds

def str_le (a b : String) : Bool := chars_le a.data b.data

/-- Stable insertion into a sorted list (earlier-inserted elements stay
in front of later equal elements, matching Python's stable sort). -/
def stable_insert {α : Type} (le : α → α → Bool) (a : α) : List α → List α
  | [] => [a]
  | b :: bs => if le a b then a :: b :: bs else b :: stable_insert le a bs

/-- Stable sort (models Python's `list.sort`, which is stable). -/
def stable_sort {α : Type} (le : α → α → Bool) : List α → List α
  | [] => []
  | a :: rest => stable_insert le a (stable_sort le rest)

/-- Join pre-serialized object fields with json.dumps separators. -/
def join_fragments : List (String × String) → String
  | [] => ""
  | [(k, v)] => "\"" ++ k ++ "\": " ++ v
  | (k, v) :: rest => "\"" ++ k ++ "\": " ++ v ++ ", " ++ join_fragments rest

mutual
/-- Model of `json.dumps(v, sort_keys=True, default=str)` as used for the
change-detection signatures.  Strings are emitted without escape
processing and floats as `num/den` of the rational; both renderings are
injective on the values the device protocol produces, which is the only
property signature comparison relies on. -/
def JValue.jdump : JValue → String
  | .jnull => "null"
  | .jbool b => if b then "true" else "false"
  | .jint n => toString n
  | .jfloat q => toString q.num ++ "/" ++ toString q.den
  | .jstr s => "\"" ++ s ++ "\""
  | .jarr xs => "[" ++ JValue.jdump_list xs ++ "]"
  | .jobj fs =>
    "\x7b" ++ join_fragments (stable_sort (fun a b => str_le a.1 b.1) (JValue.jdump_fields fs)) ++ "\x7d"

def JValue.jdump_list : List JValue → String
  | [] => ""
  | [v] => JValue.jdump v
  | v :: rest => JValue.jdump v ++ ", " ++ JValue.jdump_list rest

/-- Serialize each field's value, keeping the key for later key-sorting
(json.dumps with sort_keys=True emits object keys in sorted order). -/
def JValue.jdump_fields : List (String × JValue) → List (String × String)
  | [] => []
  | (k, v) :: rest => (k, JValue.jdump v) :: JValue.jdump_fields rest
end

/-- Mutable per-client state of `NovastarClient` (the fields used by the
operations embedded here: detail/signature caches, refresh counters and
one-shot force-refresh flags). -/
structure ClientState where
  input_detail_cache : List (Int × JDict) := []
  input_signature_cache : List (Int × String) := []
  input_refresh_counter : Nat := 0
  layer_detail_cache : List (Int × JDict) := []
  layer_signature_cache : List (Int × String) := []
  layer_refresh_counter : Nat := 0
  force_refresh_input_details : Bool := false
  force_refresh_layer_details : Bool := false

def ClientState.init : ClientState := {}

/-- One issued request: endpoint path and business payload. -/
structure Req where
  endpoint : String
  body : JValue

/-- Device oracle: models the result of `_async_request` (transport,
envelope and unwrapping included): given the device state, an endpoint
and a payload, produce the next device state and an optional response
body (`none` = any transport/application failure). -/
structure Env (σ : Type) where
  send : σ → String → JValue → σ × Option JValue

/-- A stateless oracle: the device answers purely by endpoint/payload. -/
def pure_env (f : String → JValue → Option JValue) : Env Unit :=
  ⟨fun s ep body => (s, f ep body)⟩

/-- Result of running an embedded client operation: value, new client
state, new device state, and the ordered trace of issued requests. -/
structure Out (σ : Type) (α : Type) where
  val : α
  cst : ClientState
  dev : σ
  reqs : List Req

/-- `_async_request`, at the oracle boundary (also records the trace). -/
def async_request {σ : Type} (env : Env σ) (endpoint : String) (body : JValue)
    (c : ClientState) (s : σ) : Out σ (Option JValue) :=
  let r := env.send s endpoint body
  ⟨r.2, c, r.1, [⟨endpoint, body⟩]⟩

/-- `_async_request_first_success`: try candidates in order, return the
first non-null response, null if all fail. -/
def async_request_first_success {σ : Type} (env : Env σ)
    (candidates : List (String × JValue)) (c : ClientState) (s : σ) :
    Out σ (Option JValue) :=
  match candidates with
  | [] => ⟨none, c, s, []⟩
  | (endpoint, payload) :: rest =>
    let o := async_request env endpoint payload c s
    match o.val with
    | some r => ⟨some r, o.cst, o.dev, o.reqs⟩
    | none =>
      let o2 := async_request_first_success env rest o.cst o.dev
      ⟨o2.val, o2.cst, o2.dev, o.reqs ++ o2.reqs⟩

/-- `async_get_input_list`: read `input/readList`, keep the `inputs`
entries that are dicts. -/
def async_get_input_list {σ : Type} (env : Env σ) (device_id : Int)
    (c : ClientState) (s : σ) : Out σ (List JDict) :=
  let o := async_request env "input/readList" (.jobj [("deviceId", .jint device_id)]) c s
  let v : List JDict :=
    match o.val with
    | some (.jobj d) =>
      if d.isEmpty then []      -- `if data and isinstance(data, dict)`
      else
        match dget d "inputs" with
        | some (.jarr items) =>
          items.filterMap (fun it => match it with | .jobj fs => some fs | _ => none)
        | _ => []
    | _ => []
  ⟨v, o.cst, o.dev, o.reqs⟩

/-- `async_get_input_detail`: read `input/readDetail` for one input. -/
def async_get_input_detail {σ : Type} (env : Env σ) (input_id device_id : Int)
    (c : ClientState) (s : σ) : Out σ (Option JDict) :=
  let o := async_request env "input/readDetail"
    (.jobj [("deviceId", .jint device_id), ("inputId", .jint input_id)]) c s
  let v : Option JDict :=
    match o.val with
    | some (.jobj d) => if d.isEmpty then none else some d  -- `if data and isinstance(data, dict)`
    | _ => none
  ⟨v, o.cst, o.dev, o.reqs⟩

/-- Normalize a sub-object for a signature payload:
`x if isinstance(x, dict) else {}`. -/
def dict_or_empty (v : JValue) : JValue :=
  match v with
  | .jobj fs => .jobj fs
  | _ => .jobj []

/-- `_input_signature`: deterministic digest of the list-level input
fields used for change detection. -/
def input_signature (input_data : JDict) : String :=
  JValue.jdump (.jobj [
    ("online", py_get input_data "online"),
    ("isUsed", py_get input_data "isUsed"),
    ("iSignal", py_get input_data "iSignal"),
    ("interfaceType", py_get input_data "interfaceType"),
    ("resolution", dict_or_empty (py_get input_data "resolution")),
    ("timing", dict_or_empty (py_get input_data "timing")),
    ("general", dict_or_empty (py_get input_data "general"))])

/-- The merge step of `async_get_inputs_with_details` (api.py 1471-1476):
`merged = {**input_data, **cached_detail}` when a truthy cached detail
dict exists, else a copy of the list entry. -/
def merge_input_record (entry : JDict) (cached : Option JDict) : JDict :=
  match cached with
  | some d => if d.isEmpty then entry else dict_merge entry d
  | none => entry

/-- The merge step of `async_get_layers_with_details` (api.py 1564-1571):
like the input merge, but a list-level `audioStatus` dict is re-applied
on top of the merged record. -/
def merge_layer_record (entry : JDict) (cached : Option JDict) : JDict :=
  match cached with
  | some d =>
    if d.isEmpty then entry
    else
      let merged := dict_merge entry d
      match dget entry "audioStatus" with
      | some (.jobj a) => dset merged "audioStatus" (.jobj a)
      | _ => merged
  | none => entry

/-- Sort key `item.get(key, 0)` compared as Python would compare two
ints; comparisons CPython would raise `TypeError` on (mixed types) are
totalised to `true`. -/
def jkey_le (a b : JValue) : Bool :=
  match as_py_int a, as_py_int b with
  | some m, some n => m ≤ n
  | _, _ => true

/-- `merged.sort(key=lambda item: item.get(key, 0))`. -/
def sort_by_id (key : String) (records : List JDict) : List JDict :=
  stable_sort (fun a b => jkey_le ((dget a key).getD (.jint 0)) ((dget b key).getD (.jint 0))) records

/-- Cache pruning: drop detail-cache entries whose id was not seen in the
current list cycle (the loop over `stale_ids` popping from the detail
cache). -/
def prune_detail {α : Type} (cache : List (Int × α)) (seen : List Int) : List (Int × α) :=
  cache.filter (fun kv => decide (kv.1 ∈ seen))

/-- Signature-cache pruning: `stale_ids` is computed from the detail
cache's keys, and only those ids are popped from the signature cache. -/
def prune_signature (detail_keys : List Int) (cache : List (Int × String))
    (seen : List Int) : List (Int × String) :=
  cache.filter (fun kv => !(decide (kv.1 ∈ detail_keys) && !decide (kv.1 ∈ seen)))

/-- Result of the per-entry processing loop of the two
`async_get_*_with_details` functions. -/
structure ProcOut (σ : Type) where
  records : List JDict
  seen : List Int
  cst : ClientState
  dev : σ
  reqs : List Req

/-- The conditional detail fetch and cache update for one input id
(`should_refresh_detail` / `async_get_input_detail` / cache stores). -/
def input_cache_step {σ : Type} (env : Env σ) (device_id : Int) (should_refresh_detail : Bool)
    (input_id : Int) (signature : String) (c : ClientState) (s : σ) :
    ClientState × σ × List Req :=
  if should_refresh_detail then
    let od := async_get_input_detail env input_id device_id c s
    match od.val with
    | some detail =>
      ({ od.cst with
          input_detail_cache := iset od.cst.input_detail_cache input_id detail,
          input_signature_cache := iset od.cst.input_signature_cache input_id signature },
        od.dev, od.reqs)
    | none => (od.cst, od.dev, od.reqs)
  else (c, s, [])

/-- The per-entry loop body of `async_get_inputs_with_details`: walks the
list entries in order, fetching/merging details and collecting seen ids. -/
def process_input_entries {σ : Type} (env : Env σ) (device_id : Int)
    (force_refresh periodic_refresh : Bool) :
    List JDict → ClientState → σ → ProcOut σ
  | [], c, s => ⟨[], [], c, s, []⟩
  | entry :: rest, c, s =>
    match as_py_int (py_get entry "inputId") with
    | none =>
      let r := process_input_entries env device_id force_refresh periodic_refresh rest c s
      ⟨entry :: r.records, r.seen, r.cst, r.dev, r.reqs⟩
    | some input_id =>
      let signature := input_signature entry
      let cached_signature := iget c.input_signature_cache input_id
      let should_refresh_detail :=
        force_refresh || periodic_refresh || (cached_signature != some signature)
      let step := input_cache_step env device_id should_refresh_detail input_id signature c s
      let c1 := step.1
      let merged := merge_input_record entry (iget c1.input_detail_cache input_id)
      let r := process_input_entries env device_id force_refresh periodic_refresh rest c1 step.2.1
      ⟨merged :: r.records, input_id :: r.seen, r.cst, r.dev, step.2.2 ++ r.reqs⟩

/-- `async_get_inputs_with_details`: list read, selective per-entity
detail refresh with signature-based change detection, merge, stale
pruning, sort by id. -/
def async_get_inputs_with_details {σ : Type} (env : Env σ) (device_id : Int)
    (c : ClientState) (s : σ) : Out σ (List JDict) :=
  let ol := async_get_input_list env device_id c s
  if ol.val.isEmpty then ⟨[], ol.cst, ol.dev, ol.reqs⟩
  else
    let periodic_refresh := (ol.cst.input_refresh_counter + 1) % 12 == 0
    let force_refresh := ol.cst.force_refresh_input_details
    let c1 := { ol.cst with
      input_refresh_counter := ol.cst.input_refresh_counter + 1,
      force_refresh_input_details := false }
    let r := process_input_entries env device_id force_refresh periodic_refresh ol.val c1 ol.dev
    let c3 := { r.cst with
      input_detail_cache := prune_detail r.cst.input_detail_cache r.seen,
      input_signature_cache :=
        prune_signature (r.cst.input_detail_cache.map (fun kv => kv.1))
          r.cst.input_signature_cache r.seen }
    ⟨sort_by_id "inputId" r.records, c3, r.dev, ol.reqs ++ r.reqs⟩

/-- `async_get_layer_list`: read `layer/detailList`, take
`screenLayers or layers`, keep dict entries. -/
def async_get_layer_list {σ : Type} (env : Env σ) (device_id screen_id : Int)
    (c : ClientState) (s : σ) : Out σ (List JDict) :=
  let o := async_request env "layer/detailList"
    (.jobj [("deviceId", .jint device_id), ("screenId", .jint screen_id)]) c s
  let v : List JDict :=
    match o.val with
    | some (.jobj d) =>
      if d.isEmpty then []
      else
        match py_or (py_get d "screenLayers") (py_get d "layers") with
        | .jarr items =>
          items.filterMap (fun it => match it with | .jobj fs => some fs | _ => none)
        | _ => []
    | _ => []
  ⟨v, o.cst, o.dev, o.reqs⟩

/-- `async_get_layer_detail`: read `layer/readDetail` for one layer. -/
def async_get_layer_detail {σ : Type} (env : Env σ) (layer_id device_id screen_id : Int)
    (c : ClientState) (s : σ) : Out σ (Option JDict) :=
  let o := async_request env "layer/readDetail"
    (.jobj [("deviceId", .jint device_id), ("screenId", .jint screen_id), ("layerId", .jint layer_id)]) c s
  let v : Option JDict :=
    match o.val with
    | some (.jobj d) => if d.isEmpty then none else some d
    | _ => none
  ⟨v, o.cst, o.dev, o.reqs⟩

/-- `_layer_signature`: digest of the list-level layer fields. -/
def layer_signature (layer_data : JDict) : String :=
  JValue.jdump (.jobj [
    ("layerId", py_get layer_data "layerId"),
    ("general", dict_or_empty (py_get layer_data "general")),
    ("window", dict_or_empty (py_get layer_data "window")),
    ("source", dict_or_empty (py_get layer_data "source")),
    ("audioStatus", dict_or_empty (py_get layer_data "audioStatus"))])

/-- The conditional detail fetch and cache update for one layer id. -/
def layer_cache_step {σ : Type} (env : Env σ) (device_id screen_id : Int)
    (should_refresh_detail : Bool) (layer_id : Int) (signature : String)
    (c : ClientState) (s : σ) : ClientState × σ × List Req :=
  if should_refresh_detail then
    let od := async_get_layer_detail env layer_id device_id screen_id c s
    match od.val with
    | some detail =>
      ({ od.cst with
          layer_detail_cache := iset od.cst.layer_detail_cache layer_id detail,
          layer_signature_cache := iset od.cst.layer_signature_cache layer_id signature },
        od.dev, od.reqs)
    | none => (od.cst, od.dev, od.reqs)
  else (c, s, [])

/-- The per-entry loop body of `async_get_layers_with_details`. -/
def process_layer_entries {σ : Type} (env : Env σ) (device_id screen_id : Int)
    (force_refresh periodic_refresh : Bool) :
    List JDict → ClientState → σ → ProcOut σ
  | [], c, s => ⟨[], [], c, s, []⟩
  | entry :: rest, c, s =>
    match as_py_int (py_get entry "layerId") with
    | none =>
      let r := process_layer_entries env device_id screen_id force_refresh periodic_refresh rest c s
      ⟨entry :: r.records, r.seen, r.cst, r.dev, r.reqs⟩
    | some layer_id =>
      let signature := layer_signature entry
      let cached_signature := iget c.layer_signature_cache layer_id
      let should_refresh_detail :=
        force_refresh || periodic_refresh || (cached_signature != some signature)
      let step := layer_cache_step env device_id screen_id should_refresh_detail layer_id signature c s
      let c1 := step.1
      let merged := merge_layer_record entry (iget c1.layer_detail_cache layer_id)
      let r := process_layer_entries env device_id screen_id force_refresh periodic_refresh rest c1 step.2.1
      ⟨merged :: r.records, layer_id :: r.seen, r.cst, r.dev, step.2.2 ++ r.reqs⟩

/-- `async_get_layers_with_details`: same cache strategy as inputs, with
the list-level `audioStatus` overriding the merged record. -/
def async_get_layers_with_details {σ : Type} (env : Env σ) (device_id screen_id : Int)
    (c : ClientState) (s : σ) : Out σ (List JDict) :=
  let ol := async_get_layer_list env device_id screen_id c s
  if ol.val.isEmpty then ⟨[], ol.cst, ol.dev, ol.reqs⟩
  else
    let periodic_refresh := (ol.cst.layer_refresh_counter + 1) % 12 == 0
    let force_refresh := ol.cst.force_refresh_layer_details
    let c1 := { ol.cst with
      layer_refresh_counter := ol.cst.layer_refresh_counter + 1,
      force_refresh_layer_details := false }
    let r := process_layer_entries env device_id screen_id force_refresh periodic_refresh ol.val c1 ol.dev
    let c3 := { r.cst with
      layer_detail_cache := prune_detail r.cst.layer_detail_cache r.seen,
      layer_signature_cache :=
        prune_signature (r.cst.layer_detail_cache.map (fun kv => kv.1))
          r.cst.layer_signature_cache r.seen }
    ⟨sort_by_id "layerId" r.records, c3, r.dev, ol.reqs ++ r.reqs⟩

/-- Python `s.strip()` (whitespace trimmed at both ends). -/
def py_strip (s : String) : String :=
  String.mk (((s.data.dropWhile Char.isWhitespace).reverse.dropWhile Char.isWhitespace).reverse)

/-- `_coerce_audio_id`: convert supported values to an integer audio id.
Booleans are rejected first; ints pass through; floats truncate toward
zero; decimal-digit strings parse; everything else is `None`. -/
def coerce_audio_id : JValue → Option Int
  | .jbool _ => none
  | .jint n => some n
  | .jfloat q => some (q.num.tdiv q.den)
  | .jstr s => if py_isdigit s then some (py_int_d (.jstr s)) else none
  | _ => none

/-- `_selected_audio_input_from_layers`: ids of layers whose
`audioStatus.isOpen` coerces to 1; result is `sorted(ids)[0]` (the
minimum), or `None` when no layer qualifies. -/
def selected_audio_input_from_layers (layers : List JDict) : Option Int :=
  let selected_ids := layers.filterMap (fun layer =>
    match coerce_audio_id (py_get layer "layerId") with
    | none => none
    | some layer_id =>
      match dget layer "audioStatus" with
      | some (.jobj st) =>
        if coerce_audio_id (py_get st "isOpen") == some 1 then some layer_id else none
      | _ => none)
  match selected_ids with
  | [] => none
  | x :: xs => some (xs.foldl min x)

/-- One step of the `mapped` accumulation loop of
`_audio_inputs_from_layers`. -/
def audio_input_fold_step (acc : List (Int × String)) (layer : JDict) : List (Int × String) :=
  match coerce_audio_id (py_get layer "layerId") with
  | none => acc
  | some layer_id =>
    match dget layer "audioStatus" with
    | some (.jobj st) =>
      if coerce_audio_id (py_get st "isAvailable") == some 1 then
        let input_name :=
          match dget layer "source" with
          | some (.jobj src) =>
            match dget src "name" with
            | some (.jstr nm) => if py_strip_truthy nm then py_strip nm else "Input"
            | _ => "Input"
          | _ => "Input"
        iset acc layer_id (input_name ++ " (Layer " ++ toString layer_id ++ ")")
      else acc
    | _ => acc

/-- `_audio_inputs_from_layers`: id/name options from layers whose
`audioStatus.isAvailable` coerces to 1, sorted by id. -/
def audio_inputs_from_layers (layers : List JDict) : List JDict :=
  let mapped := layers.foldl audio_input_fold_step []
  (stable_sort (fun a b => a ≤ b) (mapped.map (fun kv => kv.1))).map
    (fun i => [("id", JValue.jint i), ("name", JValue.jstr ((iget mapped i).getD ""))])

/-- The filter at the start of `async_set_audio_input`: layers with a
coercible id, a dict `audioStatus` and `isAvailable` coercing to 1. -/
def available_audio_layers (layer_items : List JDict) : List JDict :=
  layer_items.filter (fun layer =>
    match coerce_audio_id (py_get layer "layerId"), dget layer "audioStatus" with
    | some _, some (.jobj st) => coerce_audio_id (py_get st "isAvailable") == some 1
    | _, _ => false)

/-- The candidate loop inside `_write_layer_open_state`: try each
endpoint/payload, succeed on the first non-null response. -/
def try_write_candidates {σ : Type} (env : Env σ) (candidates : List (String × JValue))
    (c : ClientState) (s : σ) : Out σ Bool :=
  match candidates with
  | [] => ⟨false, c, s, []⟩
  | (endpoint, payload) :: rest =>
    let o := async_request env endpoint payload c s
    match o.val with
    | some _ => ⟨true, o.cst, o.dev, o.reqs⟩
    | none =>
      let o2 := try_write_candidates env rest o.cst o.dev
      ⟨o2.val, o2.cst, o2.dev, o.reqs ++ o2.reqs⟩

/-- `_write_layer_open_state`: write one layer's audio open state through
the `layer/writeGeneral` / `layer/writeDetail` / `layer/writeAudioStatus`
payload variants. -/
def write_layer_open_state {σ : Type} (env : Env σ) (screen_id device_id : Int)
    (layer : JDict) (should_open : Int) (c : ClientState) (s : σ) : Out σ Bool :=
  match coerce_audio_id (py_get layer "layerId"), dget layer "audioStatus" with
  | some layer_id, some (.jobj current_audio_status) =>
    let desired_audio_status := dset current_audio_status "isOpen" (.jint should_open)
    let desired_audio_status_bool := dset current_audio_status "isOpen" (.jbool (should_open == 1))
    let payload_base : JDict :=
      [("screenId", .jint screen_id), ("deviceId", .jint device_id), ("layerId", .jint layer_id)]
    let od := async_get_layer_detail env layer_id device_id screen_id c s
    let layer_detail := od.val
    let general_data : Option JDict :=
      match layer_detail with
      | some ld =>
        match dget ld "general" with
        | some (.jobj g) => some g
        | _ => match dget layer "general" with | some (.jobj g) => some g | _ => none
      | none => match dget layer "general" with | some (.jobj g) => some g | _ => none
    match general_data with
    | none => ⟨false, od.cst, od.dev, od.reqs⟩
    | some g =>
      let name_value : JValue :=
        match dget g "name" with
        | some (.jstr nm) =>
          if py_strip_truthy nm then .jstr nm else .jstr ("Layer " ++ toString layer_id)
        | _ => .jstr ("Layer " ++ toString layer_id)
      let write_general_payload : JDict := payload_base ++ [
        ("name", name_value),
        ("sizeType", .jint (py_int_d ((dget g "sizeType").getD (.jint 0)))),
        ("type", .jint (py_int_d ((dget g "type").getD (.jint 0)))),
        ("zorder", .jint (py_int_d ((dget g "zorder").getD (.jint 0)))),
        ("isBackground", .jbool ((dget g "isBackground").getD (.jbool false)).truthy),
        ("isFreeze", .jbool ((dget g "isFreeze").getD (.jbool false)).truthy),
        ("flipType", .jint (py_int_d ((dget g "flipType").getD (.jint 0)))),
        ("audioStatus", .jobj desired_audio_status)]
      let write_general_payload_nested_audio : JDict :=
        payload_base ++ [("general", .jobj (dset g "audioStatus" (.jobj desired_audio_status)))]
      let write_general_payload_nested_audio_bool : JDict :=
        payload_base ++ [("general", .jobj (dset g "audioStatus" (.jobj desired_audio_status_bool)))]
      let wg1 :=
        match coerce_audio_id (py_get g "lock") with
        | some l => dset write_general_payload "lock" (.jint l)
        | none => write_general_payload
      let wg2 :=
        match layer_detail with
        | some ld =>
          match dget ld "reverseControl" with
          | some (.jobj rc) => dset wg1 "reverseControl" (.jobj rc)
          | _ => wg1
        | none => wg1
      let wd0 : JDict :=
        payload_base ++ [("general", .jobj g), ("audioStatus", .jobj desired_audio_status)]
      let wdga0 : JDict :=
        payload_base ++ [("general", .jobj (dset g "audioStatus" (.jobj desired_audio_status)))]
      let write_audio_status_payload : JDict :=
        payload_base ++ [("audioStatus", .jobj desired_audio_status)]
      let write_audio_status_payload_bool : JDict :=
        payload_base ++ [("audioStatus", .jobj desired_audio_status_bool)]
      let wd_pair : JDict × JDict :=
        match layer_detail with
        | some ld =>
          let p1 :=
            match dget ld "window" with
            | some (.jobj w) => (dset wd0 "window" (.jobj w), dset wdga0 "window" (.jobj w))
            | _ => (wd0, wdga0)
          let p2 :=
            match dget ld "source" with
            | some (.jobj src) => (dset p1.1 "source" (.jobj src), dset p1.2 "source" (.jobj src))
            | _ => p1
          match dget ld "reverseControl" with
          | some (.jobj rc) =>
            (dset p2.1 "reverseControl" (.jobj rc), dset p2.2 "reverseControl" (.jobj rc))
          | _ => p2
        | none =>
          let p1 :=
            match dget layer "window" with
            | some (.jobj w) => (dset wd0 "window" (.jobj w), dset wdga0 "window" (.jobj w))
            | _ => (wd0, wdga0)
          match dget layer "source" with
          | some (.jobj src) => (dset p1.1 "source" (.jobj src), dset p1.2 "source" (.jobj src))
          | _ => p1
      let write_detail_payload := wd_pair.1
      let write_detail_payload_general_audio := wd_pair.2
      let candidates : List (String × JValue) := [
        ("layer/writeGeneral", .jobj wg2),
        ("layer/writeGeneral", .jobj (dset wg2 "isOpen" (.jint should_open))),
        ("layer/writeGeneral", .jobj (dset wg2 "audioStatus" (.jobj desired_audio_status_bool))),
        ("layer/writeGeneral", .jobj write_general_payload_nested_audio),
        ("layer/writeGeneral", .jobj write_general_payload_nested_audio_bool),
        ("layer/writeDetail", .jobj write_detail_payload),
        ("layer/writeDetail", .jobj write_detail_payload_general_audio),
        ("layer/writeDetail", .jobj (dset write_detail_payload "audioStatus" (.jobj desired_audio_status_bool))),
        ("layer/writeDetail", .jobj (dset write_detail_payload "audio" (.jobj [("isOpen", .jint should_open)]))),
        ("layer/writeAudioStatus", .jobj write_audio_status_payload),
        ("layer/writeAudioStatus", .jobj write_audio_status_payload_bool),
        ("layer/writeAudioStatus", .jobj (dset payload_base "isOpen" (.jint should_open)))]
      let ot := try_write_candidates env candidates od.cst od.dev
      ⟨ot.val, ot.cst, ot.dev, od.reqs ++ ot.reqs⟩
  | _, _ => ⟨false, c, s, []⟩

/-- The close-phase loop over several layers; `true` when any write
succeeded. -/
def write_layers_open_state {σ : Type} (env : Env σ) (screen_id device_id : Int)
    (layers : List JDict) (should_open : Int) (c : ClientState) (s : σ) : Out σ Bool :=
  match layers with
  | [] => ⟨false, c, s, []⟩
  | layer :: rest =>
    let o := write_layer_open_state env screen_id device_id layer should_open c s
    let o2 := write_layers_open_state env screen_id device_id rest should_open o.cst o.dev
    ⟨o.val || o2.val, o2.cst, o2.dev, o.reqs ++ o2.reqs⟩

/-- `_verify_selected_open` re-read: force fresh layer details and read
the layers again; the verification tuple is a pure function of the
returned list. -/
def verify_selected_open {σ : Type} (env : Env σ) (device_id screen_id : Int)
    (c : ClientState) (s : σ) : Out σ (List JDict) :=
  let c1 := { c with force_refresh_layer_details := true }
  async_get_layers_with_details env device_id screen_id c1 s

/-- `selected_after == selected_layer_id` of `_verify_selected_open`
(`selected_after` is `_selected_audio_input_from_layers` of the re-read;
Python's `None == X` is false). -/
def verify_applied (selected_layer_id : Int) (refreshed_layers : List JDict) : Bool :=
  selected_audio_input_from_layers refreshed_layers == some selected_layer_id

/-- The close-phase partition of `async_set_audio_input`: walk the
available audio layers, collecting currently-open non-target layers and
the target layer (last occurrence wins, as in the Python loop). -/
def partition_close_selected (audio_layers : List JDict) (selected_layer_id : Int) :
    List JDict × Option JDict :=
  audio_layers.foldl (fun acc layer =>
    match coerce_audio_id (py_get layer "layerId"), dget layer "audioStatus" with
    | some layer_id, some (.jobj st) =>
      if layer_id = selected_layer_id then (acc.1, some layer)
      else if coerce_audio_id (py_get st "isOpen") == some 1 then (acc.1 ++ [layer], acc.2)
      else acc
    | _, _ => acc) ([], none)

/-- The retry partition (availability re-checked on the re-read list). -/
def partition_retry (retry_layers : List JDict) (selected_layer_id : Int) :
    Option JDict × List JDict :=
  retry_layers.foldl (fun acc layer =>
    match coerce_audio_id (py_get layer "layerId"), dget layer "audioStatus" with
    | some layer_id, some (.jobj st) =>
      if coerce_audio_id (py_get st "isAvailable") != some 1 then acc
      else if layer_id = selected_layer_id then (some layer, acc.2)
      else if coerce_audio_id (py_get st "isOpen") == some 1 then (acc.1, acc.2 ++ [layer])
      else acc
    | _, _ => acc) (none, [])

/-- The break-on-first-success loop over the screen-level audio
candidates (the response value is only logged). -/
def try_until_some {σ : Type} (env : Env σ) (candidates : List (String × JValue))
    (c : ClientState) (s : σ) : Out σ Unit :=
  match candidates with
  | [] => ⟨(), c, s, []⟩
  | (endpoint, payload) :: rest =>
    let o := async_request env endpoint payload c s
    match o.val with
    | some _ => ⟨(), o.cst, o.dev, o.reqs⟩
    | none =>
      let o2 := try_until_some env rest o.cst o.dev
      ⟨(), o2.cst, o2.dev, o.reqs ++ o2.reqs⟩

/-- The screen-level audio-input fallback of `async_set_audio_input`
(runs when both layer-level verifications failed), followed by the final
verification.  The result pairs the returned boolean with the layer list
of that final verification. -/
def audio_screen_fallback {σ : Type} (env : Env σ) (selected_layer_id screen_id device_id : Int)
    (source_layer : JDict) (any_updated sel_updated : Bool) (c : ClientState) (s : σ) :
    Out σ (Bool × List JDict) :=
  let source_info : Option Int × Option Int × Option Int :=
    match dget source_layer "source" with
    | some (.jobj sd) =>
      (coerce_audio_id (py_get sd "inputId"),
       coerce_audio_id (py_get sd "slotId"),
       coerce_audio_id (py_get sd "interfaceType"))
    | _ => (none, none, none)
  let target_audio_input_id := (source_info.1).getD selected_layer_id
  let payload_base : JDict := [("screenId", .jint screen_id), ("deviceId", .jint device_id)]
  let osd := async_request env "screen/readDetail" (.jobj payload_base) c s
  let merged_audio_payload : Option JDict :=
    match osd.val with
    | some (.jobj d) =>
      match dget d "audio" with
      | some (.jobj a) =>
        some (dset (dset (dset a "inputChannelMode" (.jint target_audio_input_id))
          "inputId" (.jint target_audio_input_id)) "audioInputId" (.jint target_audio_input_id))
      | _ => none
    | _ => none
  let awip0 : JDict := payload_base ++ [("inputId", .jint target_audio_input_id)]
  let awip1 :=
    match source_info.2.1 with
    | some slot => dset awip0 "slotId" (.jint slot)
    | none => awip0
  let audio_write_input_payload :=
    match source_info.2.2 with
    | some it => dset awip1 "interfaceType" (.jint it)
    | none => awip1
  let screen_audio_candidates : List (String × JValue) :=
    (match merged_audio_payload with
     | some ma => [("screen/writeDetail", JValue.jobj (payload_base ++ [("audio", .jobj ma)]))]
     | none => []) ++
    [("audio/writeInput", .jobj (payload_base ++ [("audioInputId", .jint target_audio_input_id)])),
     ("audio/writeInput", .jobj audio_write_input_payload),
     ("audio/writeInput", .jobj (payload_base ++ [("inputChannelMode", .jint target_audio_input_id)])),
     ("screen/writeAudioInput", .jobj (payload_base ++ [("inputId", .jint target_audio_input_id)])),
     ("screen/writeAudioInput", .jobj (payload_base ++ [("inputChannelMode", .jint target_audio_input_id)]))]
  let ot := try_until_some env screen_audio_candidates osd.cst osd.dev
  let ov := verify_selected_open env device_id screen_id ot.cst ot.dev
  let applied := verify_applied selected_layer_id ov.val
  let any2 := if applied then true else any_updated
  let sel2 := if applied then true else sel_updated
  ⟨(any2 && sel2 && applied, ov.val), ov.cst, ov.dev, osd.reqs ++ ot.reqs ++ ov.reqs⟩

/-- The retry fallback of `async_set_audio_input` (open the target first,
then close the others), with its verification and, on failure, the
screen-level fallback. -/
def audio_retry_fallback {σ : Type} (env : Env σ) (selected_layer_id screen_id device_id : Int)
    (selected_layer : JDict) (any_updated sel_updated : Bool) (c : ClientState) (s : σ) :
    Out σ (Bool × List JDict) :=
  let c1 := { c with force_refresh_layer_details := true }
  let olr := async_get_layers_with_details env device_id screen_id c1 s
  let parts := partition_retry olr.val selected_layer_id
  let retry_selected_layer := parts.1
  let retry_close_layers := parts.2
  let osel : Out σ Bool :=
    match retry_selected_layer with
    | some rl => write_layer_open_state env screen_id device_id rl 1 olr.cst olr.dev
    | none => ⟨false, olr.cst, olr.dev, []⟩
  let any1 := any_updated || osel.val
  let sel1 := sel_updated || osel.val
  let oclose := write_layers_open_state env screen_id device_id retry_close_layers 0 osel.cst osel.dev
  let any2 := any1 || oclose.val
  let ov := verify_selected_open env device_id screen_id oclose.cst oclose.dev
  let applied := verify_applied selected_layer_id ov.val
  if applied then
    ⟨(any2 && sel1 && applied, ov.val), ov.cst, ov.dev,
      olr.reqs ++ osel.reqs ++ oclose.reqs ++ ov.reqs⟩
  else
    let source_layer :=
      match retry_selected_layer with
      | some rl => if rl.isEmpty then selected_layer else rl
      | none => selected_layer
    let og := audio_screen_fallback env selected_layer_id screen_id device_id source_layer
      any2 sel1 ov.cst ov.dev
    ⟨og.val, og.cst, og.dev, olr.reqs ++ osel.reqs ++ oclose.reqs ++ ov.reqs ++ og.reqs⟩

/-- `if any_layer_updated: self._force_refresh_layer_details = True`. -/
def set_force_layer_refresh (b : Bool) (c : ClientState) : ClientState :=
  if b then { c with force_refresh_layer_details := true } else c

/-- `async_set_audio_input`: returns the success boolean paired with the
layer list of the last verification read (empty when the function
returned before any verification ran). -/
def async_set_audio_input {σ : Type} (env : Env σ) (input_id screen_id device_id : Int)
    (c : ClientState) (s : σ) : Out σ (Bool × List JDict) :=
  let selected_layer_id := input_id
  let o1 := async_get_layers_with_details env device_id screen_id c s
  let audio_layers := available_audio_layers o1.val
  if audio_layers.isEmpty then ⟨(false, []), o1.cst, o1.dev, o1.reqs⟩
  else if !(audio_layers.any (fun layer =>
      coerce_audio_id (py_get layer "layerId") == some selected_layer_id)) then
    ⟨(false, []), o1.cst, o1.dev, o1.reqs⟩
  else
    let parts := partition_close_selected audio_layers selected_layer_id
    let oclose := write_layers_open_state env screen_id device_id parts.1 0 o1.cst o1.dev
    match parts.2 with
    | none => ⟨(false, []), oclose.cst, oclose.dev, o1.reqs ++ oclose.reqs⟩
    | some selected_layer =>
      let osel := write_layer_open_state env screen_id device_id selected_layer 1 oclose.cst oclose.dev
      let any_updated := oclose.val || osel.val
      let sel_updated := osel.val
      let c2 := set_force_layer_refresh any_updated osel.cst
      let ov := verify_selected_open env device_id screen_id c2 osel.dev
      let applied := verify_applied selected_layer_id ov.val
      if applied then
        ⟨(any_updated && sel_updated && applied, ov.val), ov.cst, ov.dev,
          o1.reqs ++ oclose.reqs ++ osel.reqs ++ ov.reqs⟩
      else
        let orf := audio_retry_fallback env selected_layer_id screen_id device_id selected_layer
          any_updated sel_updated ov.cst ov.dev
        ⟨orf.val, orf.cst, orf.dev, o1.reqs ++ oclose.reqs ++ osel.reqs ++ ov.reqs ++ orf.reqs⟩

/-- Claim-side predicate (from the spec's words in C2): number of layers
reporting `audioStatus.isAvailable = 1` and `audioStatus.isOpen = 1`. -/
def count_open_available (layers : List JDict) : Nat :=
  (layers.filter (fun layer =>
    match dget layer "audioStatus" with
    | some (.jobj st) =>
      (coerce_audio_id (py_get st "isAvailable") == some 1) &&
        (coerce_audio_id (py_get st "isOpen") == some 1)
    | _ => false)).length

/-- The envelope body after optional encryption: the payload dict
unchanged, or a Base64 ciphertext string.  The payload type is kept
generic because the client only ever passes it whole to the external
`json.dumps`. -/
inductive BodyPayload (α : Type) where
  | plain (d : α)
  | ciphertext (s : String)

/-- The ciphertext string of an encrypted body (`""` for a plain body;
only used on encrypted bodies). -/
def BodyPayload.cipher_string {α : Type} : BodyPayload α → String
  | .plain _ => ""
  | .ciphertext s => s

/-- `self._secret_key[:8].encode("utf-8").ljust(8, b"\0")`. -/
def derive_key (secret_key : String) : List Nat :=
  let bs := ((secret_key.take 8).toUTF8.toList.map (fun b => b.toNat))
  bs ++ List.replicate (8 - bs.length) 0

/-- PKCS5 padding as performed by pyDes: append `n` bytes of value `n`
where `n = 8 - len % 8` (a full block when already aligned). -/
def pkcs5_pad (bs : List Nat) : List Nat :=
  let n := 8 - bs.length % 8
  bs ++ List.replicate n n

/-- PKCS5 unpadding as performed by pyDes: `data[:-ord(data[-1:])]`
(Python's `data[:-0]` is empty, hence the zero case). -/
def pkcs5_unpad (bs : List Nat) : List Nat :=
  let n := (bs.getLast?).getD 0
  if n = 0 then [] else bs.take (bs.length - n)

/-- ECB mode: apply the block function to successive 8-byte blocks.
Modelled from the spec: pyDes (an external library) implements the
DES block permutation and its ECB driver; the 64-bit block function
itself stays an explicit parameter. -/
def ecb_apply (f : List Nat → List Nat) (bs : List Nat) : List Nat :=
  if bs.isEmpty then [] else f (bs.take 8) ++ ecb_apply f (bs.drop 8)
termination_by bs.length
decreasing_by
  simp only [List.length_drop]
  cases bs with
  | nil => simp_all
  | cons b rest => simp; omega

/-- `_encrypt_body` with encryption enabled and the cipher importable:
json-serialize, DES-ECB encrypt with PKCS5 padding under the derived
key, Base64-encode.  The external primitives (`json.dumps`, the DES
block function, `base64.b64encode`) are parameters. -/
def encrypt_body {α : Type} (encryption : Bool)
    (block_enc : List Nat → List Nat → List Nat) (b64_encode : List Nat → String)
    (dumps : α → List Nat) (secret_key : String) (body : α) : BodyPayload α :=
  if encryption then
    .ciphertext (b64_encode (ecb_apply (block_enc (derive_key secret_key)) (pkcs5_pad (dumps body))))
  else .plain body

/-- `_decrypt_body` on a string body with encryption enabled:
Base64-decode, DES-ECB decrypt with PKCS5 unpadding, json-parse.
`none` models the `{}` fallback Python returns when parsing fails (and
the `{}` returned for a string body when encryption is off). -/
def decrypt_body {α : Type} (encryption : Bool)
    (block_dec : List Nat → List Nat → List Nat) (b64_decode : String → List Nat)
    (loads : List Nat → Option α) (secret_key : String) (encrypted_body : String) : Option α :=
  if !encryption then none
  else loads (pkcs5_unpad (ecb_apply (block_dec (derive_key secret_key)) (b64_decode encrypted_body)))

/-- `_generate_signature`: Base64 of the hexadecimal MD5 digest of the
scheme-dependent message.  `md5_hex` and `b64_of_string` model
`hashlib.md5(...).hexdigest()` and `base64.b64encode` on UTF-8 text. -/
def generate_signature (encryption : Bool) (md5_hex b64_of_string : String → String)
    (project_id secret_key body_str timestamp : String) : String :=
  let message :=
    if encryption then body_str ++ timestamp ++ project_id ++ secret_key
    else timestamp ++ project_id
  b64_of_string (md5_hex message)

/-- The signed request envelope `{body, sign, pId, timeStamp}`. -/
structure RequestEnvelope where
  body : BodyPayload JDict
  sign : String
  pId : String
  timeStamp : String

/-- `_build_request`: encrypt (or pass through) the body, pick the
string form for signing (`json.dumps(body)` when the payload was not
encrypted), sign, and assemble the envelope.  The timestamp is a
parameter (`_get_timestamp` reads the wall clock). -/
def build_request (encryption : Bool) (md5_hex b64_of_string : String → String)
    (block_enc : List Nat → List Nat → List Nat) (b64_encode : List Nat → String)
    (dumps_text : JDict → String) (dumps_bytes : JDict → List Nat)
    (project_id secret_key : String) (body : JDict) (timestamp : String) : RequestEnvelope :=
  let body_payload := encrypt_body encryption block_enc b64_encode dumps_bytes secret_key body
  let body_str :=
    match body_payload with
    | .ciphertext s => s
    | .plain _ => dumps_text body
  let signature :=
    generate_signature encryption md5_hex b64_of_string project_id secret_key body_str timestamp
  ⟨body_payload, signature, project_id, timestamp⟩

/-- The aggregate `NovastarState` dataclass (`api.py`). -/
structure NovastarState where
  device_id : Int := 0
  screen_id : Int := 0
  brightness : Int := 100
  temp_status : Option Int := none
  device_status : Option Int := none
  signal_status : Option Int := none
  ftb_active : Bool := false
  freeze_active : Bool := false
  current_preset_id : Int := -1
  background_enabled : Bool := false
  background_id : Int := 0
  screens : List (Int × String) := []
  presets : List (Int × String) := []
  inputs : List JDict := []
  layers : List JDict := []
  backgrounds : List JDict := []
  audio_inputs : List JDict := []
  audio_outputs : List JDict := []
  audio_input_id : Option Int := none
  audio_output_id : Option Int := none
  audio_volume : Option Int := none
  audio_muted : Option Bool := none

/-- `async_set_ftb` of the client: write `screen/ftb`
(`type` 0 = blackout, 1 = screen on), succeed iff a response came. -/
def async_set_ftb {σ : Type} (env : Env σ) (blackout : Bool) (transition_time : Int)
    (screen_id device_id : Int) (c : ClientState) (s : σ) : Out σ Bool :=
  let o := async_request env "screen/ftb"
    (.jobj [("type", .jint (if blackout then 0 else 1)), ("time", .jint transition_time),
            ("screenId", .jint screen_id), ("deviceId", .jint device_id)]) c s
  ⟨o.val.isSome, o.cst, o.dev, o.reqs⟩

/-- `async_set_freeze` of the client: write `screen/writeFreeze`. -/
def async_set_freeze {σ : Type} (env : Env σ) (freeze : Bool)
    (screen_id device_id : Int) (c : ClientState) (s : σ) : Out σ Bool :=
  let o := async_request env "screen/writeFreeze"
    (.jobj [("enable", .jint (if freeze then 1 else 0)),
            ("screenId", .jint screen_id), ("deviceId", .jint device_id)]) c s
  ⟨o.val.isSome, o.cst, o.dev, o.reqs⟩

/-- Coordinator-owned state (`coordinator.py`): locally tracked FTB and
freeze flags (the device cannot report them) and the last published
snapshot. -/
structure CoordState where
  ftb_active : Bool := false
  freeze_active : Bool := false
  data : Option NovastarState := none

/-- Result of one coordinator operation. -/
structure CoordOut (σ : Type) (α : Type) where
  val : α
  coord : CoordState
  cst : ClientState
  dev : σ

/-- `NovastarCoordinator.async_set_ftb`: write FTB through the client;
on success track the flag locally and patch the published snapshot. -/
def coord_set_ftb {σ : Type} (env : Env σ) (blackout : Bool) (screen_id device_id : Int)
    (cd : CoordState) (c : ClientState) (s : σ) : CoordOut σ Bool :=
  let o := async_set_ftb env blackout 0 screen_id device_id c s
  if o.val then
    ⟨true,
      { cd with
          ftb_active := blackout,
          data := cd.data.map (fun st => { st with ftb_active := blackout }) },
      o.cst, o.dev⟩
  else ⟨false, cd, o.cst, o.dev⟩

/-- `NovastarCoordinator.async_set_freeze`, symmetric. -/
def coord_set_freeze {σ : Type} (env : Env σ) (freeze : Bool) (screen_id device_id : Int)
    (cd : CoordState) (c : ClientState) (s : σ) : CoordOut σ Bool :=
  let o := async_set_freeze env freeze screen_id device_id c s
  if o.val then
    ⟨true,
      { cd with
          freeze_active := freeze,
          data := cd.data.map (fun st => { st with freeze_active := freeze }) },
      o.cst, o.dev⟩
  else ⟨false, cd, o.cst, o.dev⟩

/-- `NovastarCoordinator._async_update_data`: run the aggregator
(`client.async_get_state`, modelled as the `poll` parameter since its
result's ftb/freeze fields are overwritten regardless), then overlay the
locally tracked FTB/freeze flags; the framework stores the returned
state as the new snapshot. -/
def coord_update_data {σ : Type} (poll : ClientState → σ → NovastarState × ClientState × σ)
    (cd : CoordState) (c : ClientState) (s : σ) : CoordOut σ NovastarState :=
  let r := poll c s
  let published := { r.1 with ftb_active := cd.ftb_active, freeze_active := cd.freeze_active }
  ⟨published, { cd with data := some published }, r.2.1, r.2.2⟩

/-- One step of the coordinator loop: a scheduled poll or a service call. -/
inductive CoordOp where
  | pollOp
  | ftbOp (blackout : Bool)
  | freezeOp (freeze : Bool)

/-- Run a sequence of coordinator operations, collecting every state
published by a poll, in order. -/
def coord_run {σ : Type} (env : Env σ) (poll : ClientState → σ → NovastarState × ClientState × σ)
    (screen_id device_id : Int) :
    List CoordOp → CoordState → ClientState → σ →
      CoordState × ClientState × σ × List NovastarState
  | [], cd, c, s => (cd, c, s, [])
  | op :: rest, cd, c, s =>
    match op with
    | .pollOp =>
      let o := coord_update_data poll cd c s
      let r := coord_run env poll screen_id device_id rest o.coord o.cst o.dev
      (r.1, r.2.1, r.2.2.1, o.val :: r.2.2.2)
    | .ftbOp b =>
      let o := coord_set_ftb env b screen_id device_id cd c s
      coord_run env poll screen_id device_id rest o.coord o.cst o.dev
    | .freezeOp b =>
      let o := coord_set_freeze env b screen_id device_id cd c s
      coord_run env poll screen_id device_id rest o.coord o.cst o.dev

/-- The integer ids (`isinstance(..., int)`) of a list response's
entries, in order. -/
def input_int_ids (entries : List JDict) : List Int :=
  entries.filterMap (fun e => as_py_int (py_get e "inputId"))

def layer_int_ids (entries : List JDict) : List Int :=
  entries.filterMap (fun e => as_py_int (py_get e "layerId"))

/-- Device for the C1 counterexample: one input whose list entry and
detail record share the key `online` with different values. -/
def cex1_env : Env Unit := pure_env (fun ep _ =>
  if ep = "input/readList" then
    some (.jobj [("inputs", .jarr [.jobj [("inputId", .jint 1), ("online", .jint 1)]])])
  else if ep = "input/readDetail" then some (.jobj [("online", .jint 7)])
  else none)

/-- A layer record for the C2 counterexample device. -/
def cex2_layer (lid : Int) (open_flag : Int) : JValue :=
  .jobj [("layerId", .jint lid),
         ("audioStatus", .jobj [("isAvailable", .jint 1), ("isOpen", .jint open_flag)]),
         ("general", .jobj [])]

/-- Device for the C2 counterexample: initially layer 2 is open; every
write is acknowledged, but after the first write the device reports
layers 1 and 2 both open (the state is the count of list reads). -/
def cex2_env : Env Nat :=
  ⟨fun s ep _ =>
    if ep = "layer/detailList" then
      (s + 1, some (.jobj [("screenLayers", .jarr
        (if s = 0 then [cex2_layer 1 0, cex2_layer 2 1] else [cex2_layer 1 1, cex2_layer 2 1]))]))
    else if ep = "layer/readDetail" then (s, none)
    else (s, some (.jobj [("ack", .jint 1)]))⟩

/-- Device for the C4 counterexample: an unchanged input list whose two
entries share the id 1 but differ in `online`; details always succeed. -/
def cex4_env : Env Unit := pure_env (fun ep _ =>
  if ep = "input/readList" then
    some (.jobj [("inputs", .jarr [
      .jobj [("inputId", .jint 1), ("online", .jint 0)],
      .jobj [("inputId", .jint 1), ("online", .jint 1)]])])
  else if ep = "input/readDetail" then some (.jobj [("detail", .jint 5)])
  else none)

/-- Device for the C5 counterexample: cycle N returns input 1, cycle N+1
returns an empty input list (the state is the count of list reads). -/
def cex5_env : Env Nat :=
  ⟨fun s ep _ =>
    if ep = "input/readList" then
      (s + 1, if s = 0 then some (.jobj [("inputs", .jarr [.jobj [("inputId", .jint 1)]])])
              else some (.jobj [("inputs", .jarr [])]))
    else if ep = "input/readDetail" then (s, some (.jobj [("detail", .jint 5)]))
    else (s, none)⟩

/-- An always-acknowledging device (used by witnesses). -/
def ok_env : Env Unit := pure_env (fun _ _ => some (.jobj [("ack", .jint 1)]))

/-- A trivial aggregator model for the coordinator witnesses. -/
def triv_poll : ClientState → Unit → NovastarState × ClientState × Unit :=
  fun c s => ({}, c, s)

/-- The single input entry of the stable witness device. -/
def w5_input_entry : JDict := [("inputId", .jint 1), ("online", .jint 1)]

/-- The single layer entry of the stable witness device. -/
def w5_layer_entry : JDict := [("layerId", .jint 2), ("online", .jint 1)]

/-- Responses of a stable single-input, single-layer device (used by the
C4/C5 witnesses). -/
def w5_send : String → JValue → Option JValue := fun ep _ =>
  if ep = "input/readList" then
    some (.jobj [("inputs", .jarr [.jobj w5_input_entry])])
  else if ep = "input/readDetail" then some (.jobj [("detail", .jint 5)])
  else if ep = "layer/detailList" then
    some (.jobj [("screenLayers", .jarr [.jobj w5_layer_entry])])
  else if ep = "layer/readDetail" then some (.jobj [("detail", .jint 6)])
  else none

/-- Device for the C5/C4 witnesses: a stable single-input device. -/
def w5_env : Env Unit := pure_env w5_send

/-- Device for the C6 witness: one layer whose list entry carries an
`audioStatus` dict and whose detail record carries a stale one. -/
def w6_env : Env Unit := pure_env (fun ep _ =>
  if ep = "layer/detailList" then
    some (.jobj [("screenLayers", .jarr [.jobj [
      ("layerId", .jint 3),
      ("audioStatus", .jobj [("isAvailable", .jint 1), ("isOpen", .jint 1)])]])])
  else if ep = "layer/readDetail" then
    some (.jobj [("audioStatus", .jobj [("isAvailable", .jint 1), ("isOpen", .jint 0)]),
                 ("extra", .jint 9)])
  else none)

/-- Oracle for the C9 witness: only the endpoint `e4` answers. -/
def w9_send : String → JValue → Option JValue :=
  fun ep _ => if ep = "e4" then some (.jstr "fourth") else none

/-- The state the C3 witness run publishes: defaults with the tracked
blackout flag overlaid. -/
def w3_state : NovastarState := { ftb_active := true }

/-- The merged layer record the w6 device produces: detail fields fill
gaps but the list-level `audioStatus` is kept. -/
def w6_record : JDict :=
  [("layerId", .jint 3),
   ("audioStatus", .jobj [("isAvailable", .jint 1), ("isOpen", .jint 1)]),
   ("extra", .jint 9)]
/-! Lemmas about the dict/cache primitives and the merge step. -/

theorem dget_append (a b : JDict) (k : String) :
    dget (a ++ b) k = (dget a k).or (dget b k) := by
  induction a with
  | nil => simp [dget]
  | cons kv rest ih =>
    obtain ⟨k0, v0⟩ := kv
    by_cases h : k0 = k
    · simp [dget, h]
    · simp [dget, h, ih]

theorem dget_merge_map (a b : JDict) (k : String) :
    dget (a.map (fun kv => (kv.1, (dget b kv.1).getD kv.2))) k
      = (dget a k).map (fun v => (dget b k).getD v) := by
  induction a with
  | nil => simp [dget]
  | cons kv rest ih =>
    obtain ⟨k0, v0⟩ := kv
    by_cases h : k0 = k
    · subst h; simp [dget]
    · simp [dget, h, ih]

theorem dget_filter_key (p : String → Bool) (b : JDict) (k : String) :
    dget (b.filter (fun kv => p kv.1)) k = if p k then dget b k else none := by
  induction b with
  | nil => simp [dget]
  | cons kv rest ih =>
    obtain ⟨k0, v0⟩ := kv
    by_cases hp : p k0
    · by_cases h : k0 = k
      · subst h; simp [List.filter, hp, dget, ih]
      · simp [List.filter, hp, dget, h, ih]
    · by_cases h : k0 = k
      · subst h; simp [List.filter, hp, dget, ih]
      · simp [List.filter, hp, dget, h, ih]

theorem dget_dict_merge (a b : JDict) (k : String) :
    dget (dict_merge a b) k = (dget b k).or (dget a k) := by
  unfold dict_merge
  rw [dget_append, dget_merge_map, dget_filter_key (fun k2 => (dget a k2).isNone)]
  cases ha : dget a k with
  | none => cases hb : dget b k <;> simp [ha, hb]
  | some v => cases hb : dget b k <;> simp [ha, hb]

theorem dget_dset_self (m : JDict) (k : String) (v : JValue) :
    dget (dset m k v) k = some v := by
  induction m with
  | nil => simp [dset, dget]
  | cons kv rest ih =>
    obtain ⟨k0, v0⟩ := kv
    by_cases h : k0 = k
    · simp [dset, h, dget]
    · simp [dset, h, dget, ih]

theorem dget_dset_other (m : JDict) (k k2 : String) (v : JValue) (h : k2 ≠ k) :
    dget (dset m k v) k2 = dget m k2 := by
  induction m with
  | nil =>
    simp only [dset, dget]
    rw [if_neg (fun hh => h hh.symm)]
  | cons kv rest ih =>
    obtain ⟨k0, v0⟩ := kv
    by_cases hk : k0 = k
    · subst hk
      have : ¬(k0 = k2) := fun hh => h hh.symm
      simp [dset, dget, this]
    · simp [dset, hk, dget, ih]

theorem iget_iset_self {α : Type} (m : List (Int × α)) (i : Int) (v : α) :
    iget (iset m i v) i = some v := by
  induction m with
  | nil => simp [iset, iget]
  | cons kv rest ih =>
    obtain ⟨k0, v0⟩ := kv
    by_cases h : k0 = i
    · simp [iset, h, iget]
    · simp [iset, h, iget, ih]

theorem iget_iset_other {α : Type} (m : List (Int × α)) (i j : Int) (v : α) (h : j ≠ i) :
    iget (iset m i v) j = iget m j := by
  induction m with
  | nil =>
    simp only [iset, iget]
    rw [if_neg (fun hh => h hh.symm)]
  | cons kv rest ih =>
    obtain ⟨k0, v0⟩ := kv
    by_cases hk : k0 = i
    · subst hk
      have : ¬(k0 = j) := fun hh => h hh.symm
      simp [iset, iget, this]
    · simp [iset, hk, iget, ih]

theorem iget_filter_key {α : Type} (p : Int → Bool) (m : List (Int × α)) (i : Int) :
    iget (m.filter (fun kv => p kv.1)) i = if p i then iget m i else none := by
  induction m with
  | nil => simp [iget]
  | cons kv rest ih =>
    obtain ⟨k0, v0⟩ := kv
    by_cases hp : p k0
    · by_cases h : k0 = i
      · subst h; simp [List.filter, hp, iget, ih]
      · simp [List.filter, hp, iget, h, ih]
    · by_cases h : k0 = i
      · subst h; simp [List.filter, hp, iget, ih]
      · simp [List.filter, hp, iget, h, ih]

theorem iget_isSome_mem_keys {α : Type} (m : List (Int × α)) (i : Int)
    (h : (iget m i).isSome = true) : i ∈ m.map (fun kv => kv.1) := by
  induction m with
  | nil => simp [iget] at h
  | cons kv rest ih =>
    obtain ⟨k0, v0⟩ := kv
    by_cases hk : k0 = i
    · simp [hk]
    · simp [iget, hk] at h
      simp [ih h]

theorem mem_stable_insert {α : Type} (le : α → α → Bool) (x a : α) (l : List α) :
    a ∈ stable_insert le x l ↔ a = x ∨ a ∈ l := by
  induction l with
  | nil => simp [stable_insert]
  | cons b bs ih =>
    by_cases h : le x b
    · simp [stable_insert, h]
    · simp [stable_insert, h, ih]
      tauto

theorem mem_stable_sort {α : Type} (le : α → α → Bool) (a : α) (l : List α) :
    a ∈ stable_sort le l ↔ a ∈ l := by
  induction l with
  | nil => simp [stable_sort]
  | cons b bs ih => simp [stable_sort, mem_stable_insert, ih]

theorem merge_input_record_get (e d : JDict) (k : String) (hd : d.isEmpty = false) :
    dget (merge_input_record e (some d)) k = (dget d k).or (dget e k) := by
  simp [merge_input_record, hd, dget_dict_merge]

theorem merge_layer_record_get (e d : JDict) (k : String) (hd : d.isEmpty = false)
    (hk : k ≠ "audioStatus") :
    dget (merge_layer_record e (some d)) k = (dget d k).or (dget e k) := by
  simp only [merge_layer_record, hd, Bool.false_eq_true, if_false]
  cases ha : dget e "audioStatus" with
  | none => simp [dget_dict_merge]
  | some v => cases v <;> simp [dget_dict_merge, dget_dset_other _ _ _ _ hk]

theorem merge_layer_record_audio (e : JDict) (dOpt : Option JDict) (a : JDict)
    (ha : dget e "audioStatus" = some (.jobj a)) :
    dget (merge_layer_record e dOpt) "audioStatus" = some (.jobj a) := by
  cases dOpt with
  | none => simpa [merge_layer_record] using ha
  | some d =>
    by_cases hd : d.isEmpty
    · simpa [merge_layer_record, hd] using ha
    · simp [merge_layer_record, hd, ha, dget_dset_self]

/-! Lemmas for the audio-selection functions. -/

theorem pure_env_send (f : String → JValue → Option JValue) (s : Unit) (ep : String) (b : JValue) :
    (pure_env f).send s ep b = ((), f ep b) := rfl

theorem iset_keys_mem {α : Type} (m : List (Int × α)) (i j : Int) (v : α) :
    j ∈ (iset m i v).map (fun kv => kv.1) ↔ j = i ∨ j ∈ m.map (fun kv => kv.1) := by
  induction m with
  | nil => simp [iset]
  | cons kv rest ih =>
    obtain ⟨k0, v0⟩ := kv
    by_cases h : k0 = i
    · subst h
      simp [iset]
    · simp [iset, h, ih]
      tauto

/-- C1 counterexample: with the cex1 device the single merged input
record carries the cached-detail value 7 under `online` even though the
list entry supplied 1 — the list-level field does not win. -/
theorem c1_counterexample :
    ((async_get_inputs_with_details cex1_env 0 ClientState.init ()).val.map
        (fun r => dget r "online")) = [some (.jint 7)] ∧
    ((async_get_input_list cex1_env 0 ClientState.init ()).val.map
        (fun r => dget r "online")) = [some (.jint 1)] ∧
    JValue.jint 7 ≠ JValue.jint 1 := by
  refine ⟨rfl, rfl, ?_⟩
  intro h
  injection h with h2
  omega

/-- C1 (amended): in the merge steps of `async_get_inputs_with_details`
(api.py 1471-1476) and `async_get_layers_with_details` (api.py
1564-1571) it is the cached detail value that wins whenever a key is
present in both the list entry and the non-empty cached detail; the
list-level fields only supply keys the detail lacks — except that a
layer's list-level `audioStatus` mapping is re-applied over the merged
record. -/
theorem c1_detail_fields_win (e d : JDict) (k : String) (hd : d.isEmpty = false) :
    dget (merge_input_record e (some d)) k = (dget d k).or (dget e k) ∧
    (k ≠ "audioStatus" → dget (merge_layer_record e (some d)) k = (dget d k).or (dget e k)) ∧
    (∀ a, dget e "audioStatus" = some (.jobj a) →
      dget (merge_layer_record e (some d)) "audioStatus" = some (.jobj a)) :=
  ⟨merge_input_record_get e d k hd,
   fun hk => merge_layer_record_get e d k hd hk,
   fun a ha => merge_layer_record_audio e (some d) a ha⟩

/-- Witness for the amended C1 theorem at a concrete entry and detail. -/
theorem c1_detail_fields_win_witness :
    dget (merge_input_record [("k", JValue.jint 1)] (some [("k", JValue.jint 2)])) "k"
      = (dget [("k", JValue.jint 2)] "k").or (dget [("k", JValue.jint 1)] "k") :=
  (c1_detail_fields_win [("k", .jint 1)] [("k", .jint 2)] "k" rfl).1

/-- C7: with encryption disabled the signature is Base64 of the hex MD5
digest of `timestamp + projectId`, the envelope body is the payload
unchanged, and the signature does not depend on the payload. -/
theorem c7_signature_encryption_disabled (md5_hex b64_of_string : String → String)
    (block_enc : List Nat → List Nat → List Nat) (b64_encode : List Nat → String)
    (dumps_text : JDict → String) (dumps_bytes : JDict → List Nat)
    (project_id secret_key : String) (P : JDict) (T : String) :
    ((build_request false md5_hex b64_of_string block_enc b64_encode dumps_text dumps_bytes
        project_id secret_key P T).sign = b64_of_string (md5_hex (T ++ project_id))) ∧
    ((build_request false md5_hex b64_of_string block_enc b64_encode dumps_text dumps_bytes
        project_id secret_key P T).body = .plain P) ∧
    (∀ P2 : JDict,
      (build_request false md5_hex b64_of_string block_enc b64_encode dumps_text dumps_bytes
          project_id secret_key P2 T).sign
        = (build_request false md5_hex b64_of_string block_enc b64_encode dumps_text dumps_bytes
            project_id secret_key P T).sign) :=
  ⟨rfl, rfl, fun _ => rfl⟩

/-- C9: the endpoint fallback resolver invokes the transport on the
candidates in list order up to and including the first success, returns
the first non-null response, and returns null exactly when every
candidate fails; in particular with exactly the fourth of four
candidates succeeding, its response is returned. -/
theorem c9_first_success_resolver (f : String → JValue → Option JValue)
    (candidates : List (String × JValue)) (c : ClientState) :
    ((async_request_first_success (pure_env f) candidates c ()).val
        = candidates.findSome? (fun p => f p.1 p.2)) ∧
    ((async_request_first_success (pure_env f) candidates c ()).reqs.map
        (fun r => (r.endpoint, r.body))
      = candidates.take ((candidates.takeWhile (fun p => (f p.1 p.2).isNone)).length + 1)) ∧
    (((async_request_first_success (pure_env f) candidates c ()).val = none) ↔
      ∀ p ∈ candidates, f p.1 p.2 = none) ∧
    (∀ (g : String → JValue → Option JValue) (p1 p2 p3 p4 : String × JValue),
      g p1.1 p1.2 = none → g p2.1 p2.2 = none → g p3.1 p3.2 = none →
      (async_request_first_success (pure_env g) [p1, p2, p3, p4] c ()).val = g p4.1 p4.2) := by
  refine ⟨?_, ?_, ?_, ?_⟩
  · induction candidates with
    | nil => rfl
    | cons p rest ih =>
      obtain ⟨e, pl⟩ := p
      cases h : f e pl with
      | some r => simp [async_request_first_success, async_request, pure_env_send, h]
      | none => simp [async_request_first_success, async_request, pure_env_send, h, ih]
  · induction candidates with
    | nil => rfl
    | cons p rest ih =>
      obtain ⟨e, pl⟩ := p
      cases h : f e pl with
      | some r => simp [async_request_first_success, async_request, pure_env_send, h, List.takeWhile]
      | none => simp [async_request_first_success, async_request, pure_env_send, h, List.takeWhile, ih]
  · induction candidates with
    | nil => simp [async_request_first_success]
    | cons p rest ih =>
      obtain ⟨e, pl⟩ := p
      cases h : f e pl with
      | some r => simp [async_request_first_success, async_request, pure_env_send, h]
      | none => simp [async_request_first_success, async_request, pure_env_send, h, ih]
  · intro g p1 p2 p3 p4 h1 h2 h3
    obtain ⟨e1, q1⟩ := p1
    obtain ⟨e2, q2⟩ := p2
    obtain ⟨e3, q3⟩ := p3
    obtain ⟨e4, q4⟩ := p4
    simp only at h1 h2 h3
    cases h4 : g e4 q4 with
    | some r => simp [async_request_first_success, async_request, pure_env_send, h1, h2, h3, h4]
    | none => simp [async_request_first_success, async_request, pure_env_send, h1, h2, h3, h4]

/-- Witness for the fourth-candidate conjunct of C9. -/
theorem c9_first_success_resolver_witness :
    (async_request_first_success (pure_env w9_send)
        [("e1", .jnull), ("e2", .jnull), ("e3", .jnull), ("e4", .jnull)]
        ClientState.init ()).val = w9_send "e4" .jnull :=
  (c9_first_success_resolver w9_send [] ClientState.init).2.2.2 w9_send
    ("e1", .jnull) ("e2", .jnull) ("e3", .jnull) ("e4", .jnull) rfl rfl rfl

/-! Lemmas for C10. -/

theorem audio_input_fold_step_keys (acc : List (Int × String)) (l : JDict) (j : Int)
    (hj : j ∈ ((audio_input_fold_step acc l).map (fun kv => kv.1))) :
    j ∈ acc.map (fun kv => kv.1) ∨
      ∃ st, dget l "audioStatus" = some (.jobj st) ∧
        coerce_audio_id (py_get st "isAvailable") = some 1 ∧
        coerce_audio_id (py_get l "layerId") = some j := by
  unfold audio_input_fold_step at hj
  split at hj
  · exact Or.inl hj
  · rename_i lid hc
    split at hj
    · rename_i st hst
      split at hj
      · rename_i hav
        rcases (iset_keys_mem _ _ _ _).mp hj with rfl | hacc
        · exact Or.inr ⟨st, hst, eq_of_beq hav, hc⟩
        · exact Or.inl hacc
      · exact Or.inl hj
    all_goals exact Or.inl hj

theorem audio_fold_mem_keys (layers : List JDict) :
    ∀ (acc : List (Int × String)) (j : Int),
      j ∈ ((layers.foldl audio_input_fold_step acc).map (fun kv => kv.1)) →
      j ∈ acc.map (fun kv => kv.1) ∨
        ∃ l ∈ layers, ∃ st, dget l "audioStatus" = some (.jobj st) ∧
          coerce_audio_id (py_get st "isAvailable") = some 1 ∧
          coerce_audio_id (py_get l "layerId") = some j := by
  induction layers with
  | nil => intro acc j hj; exact Or.inl hj
  | cons l ls ih =>
    intro acc j hj
    rw [List.foldl_cons] at hj
    rcases ih (audio_input_fold_step acc l) j hj with h1 | h2
    · rcases audio_input_fold_step_keys acc l j h1 with h0 | ⟨st, hst, hav, hc⟩
      · exact Or.inl h0
      · exact Or.inr ⟨l, by simp, st, hst, hav, hc⟩
    · obtain ⟨l2, hl2, rest⟩ := h2
      exact Or.inr ⟨l2, List.mem_cons_of_mem _ hl2, rest⟩

/-- C10: `_coerce_audio_id` deliberately rejects booleans and accepts
only ints, floats and decimal-digit strings; consequently a layer whose
`audioStatus.isOpen` does not coerce to the number 1 (in particular a
JSON boolean) is never selected — with no numerically-open layer the
derived audio input id is `None` — and every option produced by
`_audio_inputs_from_layers` stems from a layer whose `isAvailable`
coerces to the number 1. -/
theorem c10_audio_id_coercion :
    (coerce_audio_id (.jbool true) = none ∧ coerce_audio_id (.jbool false) = none) ∧
    (∀ v, (coerce_audio_id v).isSome = true →
      (∃ n, v = .jint n) ∨ (∃ q, v = .jfloat q) ∨ (∃ s, v = .jstr s ∧ py_isdigit s = true)) ∧
    (∀ layers : List JDict,
      (∀ l ∈ layers, ∀ st, dget l "audioStatus" = some (.jobj st) →
        coerce_audio_id (py_get st "isOpen") ≠ some 1) →
      selected_audio_input_from_layers layers = none) ∧
    (∀ layers : List JDict, ∀ r ∈ audio_inputs_from_layers layers, ∀ i : Int,
      dget r "id" = some (.jint i) →
      ∃ l ∈ layers, ∃ st, dget l "audioStatus" = some (.jobj st) ∧
        coerce_audio_id (py_get st "isAvailable") = some 1 ∧
        coerce_audio_id (py_get l "layerId") = some i) := by
  refine ⟨⟨rfl, rfl⟩, ?_, ?_, ?_⟩
  · intro v hv
    cases v with
    | jint n => exact Or.inl ⟨n, rfl⟩
    | jfloat q => exact Or.inr (Or.inl ⟨q, rfl⟩)
    | jstr s =>
      by_cases hds : py_isdigit s
      · exact Or.inr (Or.inr ⟨s, rfl, hds⟩)
      · simp [coerce_audio_id, hds] at hv
    | jnull => simp [coerce_audio_id] at hv
    | jbool b => simp [coerce_audio_id] at hv
    | jarr xs => simp [coerce_audio_id] at hv
    | jobj fs => simp [coerce_audio_id] at hv
  · intro layers h
    have hnil : layers.filterMap (fun layer =>
        match coerce_audio_id (py_get layer "layerId") with
        | none => none
        | some layer_id =>
          match dget layer "audioStatus" with
          | some (.jobj st) =>
            if coerce_audio_id (py_get st "isOpen") == some 1 then some layer_id else none
          | _ => none) = [] := by
      rw [List.filterMap_eq_nil_iff]
      intro l hl
      cases hc : coerce_audio_id (py_get l "layerId") with
      | none => rfl
      | some lid =>
        cases hst : dget l "audioStatus" with
        | none => rfl
        | some v =>
          cases v with
          | jobj st =>
            have h2 : (coerce_audio_id (py_get st "isOpen") == some 1) = false :=
              beq_eq_false_iff_ne.mpr (h l hl st hst)
            simp [h2]
          | jnull => rfl
          | jbool b => rfl
          | jint n => rfl
          | jfloat q => rfl
          | jstr s2 => rfl
          | jarr xs => rfl
    simp only [selected_audio_input_from_layers, hnil]
  · intro layers r hr i hid
    simp only [audio_inputs_from_layers, List.mem_map] at hr
    obtain ⟨jj, hjj, hrj⟩ := hr
    rw [mem_stable_sort] at hjj
    subst hrj
    simp only [dget, if_pos] at hid
    have hji : jj = i := by
      simp [dget] at hid
      exact hid
    subst hji
    rcases audio_fold_mem_keys layers [] jj hjj with h0 | hgood
    · simp at h0
    · exact hgood

/-- Witness for C10: a layer whose `audioStatus.isOpen` is a JSON
boolean is never selected. -/
theorem c10_audio_id_coercion_witness :
    selected_audio_input_from_layers
      [[("layerId", JValue.jint 3),
        ("audioStatus", JValue.jobj [("isOpen", JValue.jbool true)])]] = none :=
  c10_audio_id_coercion.2.2.1 _ (by
    intro l hl st hst
    simp only [List.mem_singleton] at hl
    subst hl
    simp only [dget] at hst
    rw [if_neg (by decide : ¬("layerId" = "audioStatus"))] at hst
    injection hst with h2
    injection h2 with h3
    subst h3
    decide)

/-! Record provenance for the layer pipeline (used by C6). -/

theorem process_layer_entries_records {σ : Type} (env : Env σ) (device_id screen_id : Int)
    (force_refresh periodic_refresh : Bool) :
    ∀ (es : List JDict) (c : ClientState) (s : σ),
      ∀ r ∈ (process_layer_entries env device_id screen_id force_refresh periodic_refresh
          es c s).records,
        ∃ e ∈ es, ∃ dOpt, r = merge_layer_record e dOpt := by
  intro es
  induction es with
  | nil => intro c s r hr; simp [process_layer_entries] at hr
  | cons entry rest ih =>
    intro c s r hr
    unfold process_layer_entries at hr
    split at hr
    · rcases List.mem_cons.mp hr with h0 | hmem
      · exact ⟨entry, by simp, none, h0.trans rfl⟩
      · obtain ⟨e, he, dOpt, hm⟩ := ih _ _ r hmem
        exact ⟨e, List.mem_cons_of_mem _ he, dOpt, hm⟩
    · rcases List.mem_cons.mp hr with h0 | hmem
      · exact ⟨entry, by simp, _, h0⟩
      · obtain ⟨e, he, dOpt, hm⟩ := ih _ _ r hmem
        exact ⟨e, List.mem_cons_of_mem _ he, dOpt, hm⟩

/-- C6: every record returned by `async_get_layers_with_details` is the
merge of a list-response entry with an optional cached detail, and
whenever that entry carries an `audioStatus` mapping the returned record
has exactly that `audioStatus` — no detail-sourced value survives. -/
theorem c6_list_audio_status_wins {σ : Type} (env : Env σ) (device_id screen_id : Int)
    (c : ClientState) (s : σ) :
    ∀ r ∈ (async_get_layers_with_details env device_id screen_id c s).val,
      ∃ e ∈ (async_get_layer_list env device_id screen_id c s).val, ∃ dOpt,
        r = merge_layer_record e dOpt ∧
        ∀ a, dget e "audioStatus" = some (.jobj a) → dget r "audioStatus" = some (.jobj a) := by
  intro r hr
  simp only [async_get_layers_with_details] at hr
  split at hr
  · simp at hr
  · have hr2 := (mem_stable_sort _ r _).mp hr
    obtain ⟨e, he, dOpt, hm⟩ :=
      process_layer_entries_records env device_id screen_id _ _ _ _ _ r hr2
    refine ⟨e, he, dOpt, hm, fun a ha => ?_⟩
    rw [hm]
    exact merge_layer_record_audio e dOpt a ha

/-- Witness for C6 on the w6 device: the returned record keeps the
list-level audioStatus while gaining the detail-only key. -/
theorem c6_list_audio_status_wins_witness :
    ∃ e ∈ (async_get_layer_list w6_env 0 0 ClientState.init ()).val, ∃ dOpt,
      w6_record = merge_layer_record e dOpt ∧
      ∀ a, dget e "audioStatus" = some (.jobj a) →
        dget w6_record "audioStatus" = some (.jobj a) :=
  c6_list_audio_status_wins w6_env 0 0 ClientState.init () w6_record
    (show w6_record ∈ [w6_record] from List.mem_singleton_self _)

/-! Coordinator lemmas (C3). -/

theorem coord_run_polls_flags {σ : Type} (env : Env σ)
    (poll : ClientState → σ → NovastarState × ClientState × σ) (screen_id device_id : Int) :
    ∀ (n : Nat) (cd : CoordState) (c : ClientState) (s : σ),
      ∀ st ∈ (coord_run env poll screen_id device_id
          (List.replicate n CoordOp.pollOp) cd c s).2.2.2,
        st.ftb_active = cd.ftb_active ∧ st.freeze_active = cd.freeze_active := by
  intro n
  induction n with
  | zero => intro cd c s st hst; simp [coord_run, List.replicate] at hst
  | succ k ih =>
    intro cd c s st hst
    simp only [List.replicate, coord_run] at hst
    rcases List.mem_cons.mp hst with h0 | hmem
    · subst h0; exact ⟨rfl, rfl⟩
    · exact ih ((coord_update_data poll cd c s).coord) ((coord_update_data poll cd c s).cst)
        ((coord_update_data poll cd c s).dev) st hmem

/-- C3: the DeviceState produced by a poll always carries the
coordinator's locally tracked FTB/freeze flags (the aggregator's values
are overwritten); a successful `async_set_ftb`/`async_set_freeze`
updates the tracked flag while a failed one leaves the coordinator
unchanged; and polls never change the tracked flags, so after a
successful blackout every subsequent poll still reports
`ftb_active = true` even though no device read supplies it. -/
theorem c3_local_flags_survive_polls {σ : Type} (env : Env σ)
    (poll : ClientState → σ → NovastarState × ClientState × σ) (screen_id device_id : Int) :
    (∀ (cd : CoordState) (c : ClientState) (s : σ),
      ((coord_update_data poll cd c s).val.ftb_active = cd.ftb_active ∧
       (coord_update_data poll cd c s).val.freeze_active = cd.freeze_active) ∧
      ((coord_update_data poll cd c s).coord.ftb_active = cd.ftb_active ∧
       (coord_update_data poll cd c s).coord.freeze_active = cd.freeze_active)) ∧
    (∀ (cd : CoordState) (c : ClientState) (s : σ) (b : Bool),
      ((coord_set_ftb env b screen_id device_id cd c s).val = true →
        (coord_set_ftb env b screen_id device_id cd c s).coord.ftb_active = b) ∧
      ((coord_set_ftb env b screen_id device_id cd c s).val = false →
        (coord_set_ftb env b screen_id device_id cd c s).coord = cd) ∧
      ((coord_set_freeze env b screen_id device_id cd c s).val = true →
        (coord_set_freeze env b screen_id device_id cd c s).coord.freeze_active = b)) ∧
    (∀ (n : Nat) (cd : CoordState) (c : ClientState) (s : σ),
      ∀ st ∈ (coord_run env poll screen_id device_id
          (List.replicate n CoordOp.pollOp) cd c s).2.2.2,
        st.ftb_active = cd.ftb_active ∧ st.freeze_active = cd.freeze_active) ∧
    (∀ (n : Nat) (cd : CoordState) (c : ClientState) (s : σ),
      (coord_set_ftb env true screen_id device_id cd c s).val = true →
      ∀ st ∈ (coord_run env poll screen_id device_id (List.replicate n CoordOp.pollOp)
          (coord_set_ftb env true screen_id device_id cd c s).coord
          (coord_set_ftb env true screen_id device_id cd c s).cst
          (coord_set_ftb env true screen_id device_id cd c s).dev).2.2.2,
        st.ftb_active = true) := by
  refine ⟨fun cd c s => ⟨⟨rfl, rfl⟩, ⟨rfl, rfl⟩⟩, ?_, ?_, ?_⟩
  · intro cd c s b
    refine ⟨?_, ?_, ?_⟩
    · intro h
      by_cases hv : (async_set_ftb env b 0 screen_id device_id c s).val = true
      · simp [coord_set_ftb, hv]
      · simp [coord_set_ftb, hv] at h
    · intro h
      by_cases hv : (async_set_ftb env b 0 screen_id device_id c s).val = true
      · simp [coord_set_ftb, hv] at h
      · simp [coord_set_ftb, hv]
    · intro h
      by_cases hv : (async_set_freeze env b screen_id device_id c s).val = true
      · simp [coord_set_freeze, hv]
      · simp [coord_set_freeze, hv] at h
  · exact coord_run_polls_flags env poll screen_id device_id
  · intro n cd c s hset st hst
    have hflag : (coord_set_ftb env true screen_id device_id cd c s).coord.ftb_active = true := by
      by_cases hv : (async_set_ftb env true 0 screen_id device_id c s).val = true
      · simp [coord_set_ftb, hv]
      · simp [coord_set_ftb, hv] at hset
    have h2 := coord_run_polls_flags env poll screen_id device_id n
      ((coord_set_ftb env true screen_id device_id cd c s).coord)
      ((coord_set_ftb env true screen_id device_id cd c s).cst)
      ((coord_set_ftb env true screen_id device_id cd c s).dev) st hst
    rw [h2.1]
    exact hflag

/-- Witness for C3: on an always-acknowledging device, after a
successful blackout the next polled state reports `ftb_active`. -/
theorem c3_local_flags_survive_polls_witness :
    w3_state.ftb_active = true :=
  (c3_local_flags_survive_polls ok_env triv_poll 0 0).2.2.2 1 {} ClientState.init () rfl
    w3_state (show w3_state ∈ [w3_state] from List.mem_singleton_self _)

/-! Verification soundness for `async_set_audio_input` (C2). -/

theorem verify_applied_selected (selected_layer_id : Int) (ls : List JDict)
    (h : verify_applied selected_layer_id ls = true) :
    selected_audio_input_from_layers ls = some selected_layer_id :=
  eq_of_beq h

theorem audio_screen_fallback_sound {σ : Type} (env : Env σ)
    (selected_layer_id screen_id device_id : Int) (source_layer : JDict)
    (any_updated sel_updated : Bool) (c : ClientState) (s : σ)
    (h : (audio_screen_fallback env selected_layer_id screen_id device_id source_layer
        any_updated sel_updated c s).val.1 = true) :
    selected_audio_input_from_layers
      (audio_screen_fallback env selected_layer_id screen_id device_id source_layer
        any_updated sel_updated c s).val.2 = some selected_layer_id := by
  simp only [audio_screen_fallback] at h ⊢
  simp only [Bool.and_eq_true] at h
  exact verify_applied_selected _ _ h.2

theorem audio_retry_fallback_sound {σ : Type} (env : Env σ)
    (selected_layer_id screen_id device_id : Int) (selected_layer : JDict)
    (any_updated sel_updated : Bool) (c : ClientState) (s : σ)
    (h : (audio_retry_fallback env selected_layer_id screen_id device_id selected_layer
        any_updated sel_updated c s).val.1 = true) :
    selected_audio_input_from_layers
      (audio_retry_fallback env selected_layer_id screen_id device_id selected_layer
        any_updated sel_updated c s).val.2 = some selected_layer_id := by
  simp only [audio_retry_fallback] at h ⊢
  split at h
  · rename_i hcond
    rw [if_pos hcond]
    exact verify_applied_selected _ _ hcond
  · rename_i hcond
    rw [if_neg hcond]
    exact audio_screen_fallback_sound _ _ _ _ _ _ _ _ _ h

/-- C2 (amended): whenever `async_set_audio_input(X)` returns success,
the final verification read found `X` to be the minimum layer id whose
`audioStatus.isOpen` coerces to 1 (in particular X's layer is open and
no numerically-open layer has a smaller id); neither uniqueness of the
open layer nor `isAvailable` is verified. -/
theorem c2_success_implies_min_open {σ : Type} (env : Env σ)
    (input_id screen_id device_id : Int) (c : ClientState) (s : σ)
    (h : (async_set_audio_input env input_id screen_id device_id c s).val.1 = true) :
    selected_audio_input_from_layers
      (async_set_audio_input env input_id screen_id device_id c s).val.2 = some input_id := by
  revert h
  simp only [async_set_audio_input]
  split
  · intro h; simp at h
  · split
    · intro h; simp at h
    · split
      · intro h; simp at h
      · rename_i sel
        split
        · rename_i hcond
          intro _
          exact verify_applied_selected _ _ hcond
        · intro h
          exact audio_retry_fallback_sound _ _ _ _ _ _ _ _ _ h

/-- C2 counterexample: on the cex2 device `async_set_audio_input(1)`
returns success while the final verification read reports two layers
with `isAvailable = 1` and `isOpen = 1` — the open layer is not unique,
only minimal. -/
theorem c2_counterexample :
    (async_set_audio_input cex2_env 1 0 0 ClientState.init 0).val.1 = true ∧
    count_open_available (async_set_audio_input cex2_env 1 0 0 ClientState.init 0).val.2 = 2 :=
  ⟨rfl, rfl⟩

/-- Witness for the amended C2 theorem on the cex2 device. -/
theorem c2_success_implies_min_open_witness :
    selected_audio_input_from_layers
      (async_set_audio_input cex2_env 1 0 0 ClientState.init 0).val.2 = some 1 :=
  c2_success_implies_min_open cex2_env 1 0 0 ClientState.init 0 rfl

/-! Invariants of the input-side detail-cache loop (C4, C5). -/

theorem input_int_ids_cons (entry : JDict) (rest : List JDict) :
    input_int_ids (entry :: rest) =
      match as_py_int (py_get entry "inputId") with
      | none => input_int_ids rest
      | some j => j :: input_int_ids rest := by
  simp only [input_int_ids, List.filterMap_cons]
  cases as_py_int (py_get entry "inputId") <;> rfl

theorem input_cache_step_cst_base {σ : Type} (env : Env σ) (device_id : Int)
    (should : Bool) (j : Int) (sig : String) (c : ClientState) (s : σ) :
    ((input_cache_step env device_id should j sig c s).1.input_refresh_counter
        = c.input_refresh_counter) ∧
    ((input_cache_step env device_id should j sig c s).1.force_refresh_input_details
        = c.force_refresh_input_details) := by
  unfold input_cache_step
  split
  · cases hdet : (async_get_input_detail env j device_id c s).val with
    | some d => simp only [hdet]; exact ⟨rfl, rfl⟩
    | none => simp only [hdet]; exact ⟨rfl, rfl⟩
  · exact ⟨rfl, rfl⟩

theorem input_cache_step_sig_other {σ : Type} (env : Env σ) (device_id : Int)
    (should : Bool) (j : Int) (sig : String) (c : ClientState) (s : σ) (k : Int)
    (hk : k ≠ j) :
    iget (input_cache_step env device_id should j sig c s).1.input_signature_cache k
      = iget c.input_signature_cache k := by
  unfold input_cache_step
  split
  · cases hdet : (async_get_input_detail env j device_id c s).val with
    | some d => simp only [hdet]; exact iget_iset_other _ _ _ _ hk
    | none => simp only [hdet]; rfl
  · rfl

theorem input_cache_step_pairing {σ : Type} (env : Env σ) (device_id : Int)
    (should : Bool) (j : Int) (sig : String) (c : ClientState) (s : σ)
    (hp : ∀ i, (iget c.input_signature_cache i).isSome = true →
      (iget c.input_detail_cache i).isSome = true) :
    ∀ i, (iget (input_cache_step env device_id should j sig c s).1.input_signature_cache i).isSome
        = true →
      (iget (input_cache_step env device_id should j sig c s).1.input_detail_cache i).isSome
        = true := by
  unfold input_cache_step
  split
  · cases hdet : (async_get_input_detail env j device_id c s).val with
    | some d =>
      simp only [hdet]
      intro i hi
      by_cases hij : i = j
      · subst hij
        simp [iget_iset_self]
      · rw [iget_iset_other _ _ _ _ hij] at hi ⊢
        exact hp i hi
    | none => simp only [hdet]; exact hp
  · exact hp

theorem input_cache_step_sig_self {σ : Type} (env : Env σ) (device_id : Int)
    (force periodic : Bool) (j : Int) (sig : String) (c : ClientState) (s : σ)
    (hsucc : ((async_get_input_detail env j device_id c s).val.isSome = true)) :
    iget (input_cache_step env device_id
        (force || periodic || (iget c.input_signature_cache j != some sig))
        j sig c s).1.input_signature_cache j
      = some sig := by
  by_cases hs : (force || periodic || (iget c.input_signature_cache j != some sig)) = true
  · rw [hs]
    unfold input_cache_step
    cases hdet : (async_get_input_detail env j device_id c s).val with
    | some d => simp only [hdet, if_true]; exact iget_iset_self _ _ _
    | none => rw [hdet] at hsucc; simp at hsucc
  · have hX : (force || periodic || (iget c.input_signature_cache j != some sig)) = false :=
      Bool.eq_false_iff.mpr hs
    have hbne : (iget c.input_signature_cache j != some sig) = false :=
      (Bool.or_eq_false_iff.mp hX).2
    have hc : iget c.input_signature_cache j = some sig := by
      simpa using hbne
    rw [hX]
    exact hc

theorem process_input_entries_seen {σ : Type} (env : Env σ) (device_id : Int)
    (force_refresh periodic_refresh : Bool) :
    ∀ (es : List JDict) (c : ClientState) (s : σ),
      (process_input_entries env device_id force_refresh periodic_refresh es c s).seen
        = input_int_ids es := by
  intro es
  induction es with
  | nil => intro c s; rfl
  | cons entry rest ih =>
    intro c s
    unfold process_input_entries
    rw [input_int_ids_cons]
    cases hident : as_py_int (py_get entry "inputId") with
    | none => exact ih _ _
    | some j => exact congrArg (List.cons j) (ih _ _)

theorem process_input_entries_cst_base {σ : Type} (env : Env σ) (device_id : Int)
    (force_refresh periodic_refresh : Bool) :
    ∀ (es : List JDict) (c : ClientState) (s : σ),
      ((process_input_entries env device_id force_refresh periodic_refresh es c s).cst.input_refresh_counter
        = c.input_refresh_counter) ∧
      ((process_input_entries env device_id force_refresh periodic_refresh es c s).cst.force_refresh_input_details
        = c.force_refresh_input_details) := by
  intro es
  induction es with
  | nil => intro c s; exact ⟨rfl, rfl⟩
  | cons entry rest ih =>
    intro c s
    unfold process_input_entries
    cases hident : as_py_int (py_get entry "inputId") with
    | none => exact ih _ _
    | some j =>
      refine ⟨(ih _ _).1.trans (input_cache_step_cst_base env device_id _ j _ c s).1,
        (ih _ _).2.trans (input_cache_step_cst_base env device_id _ j _ c s).2⟩

theorem process_input_entries_sig_frame {σ : Type} (env : Env σ) (device_id : Int)
    (force_refresh periodic_refresh : Bool) :
    ∀ (es : List JDict) (c : ClientState) (s : σ) (k : Int), k ∉ input_int_ids es →
      iget (process_input_entries env device_id force_refresh periodic_refresh
          es c s).cst.input_signature_cache k
        = iget c.input_signature_cache k := by
  intro es
  induction es with
  | nil => intro c s k _; rfl
  | cons entry rest ih =>
    intro c s k hk
    rw [input_int_ids_cons] at hk
    unfold process_input_entries
    cases hident : as_py_int (py_get entry "inputId") with
    | none =>
      rw [hident] at hk
      exact ih _ _ _ hk
    | some j =>
      rw [hident] at hk
      simp only [List.mem_cons, not_or] at hk
      obtain ⟨hkj, hkrest⟩ := hk
      exact (ih _ _ _ hkrest).trans (input_cache_step_sig_other env device_id _ j _ c s k hkj)

theorem process_input_entries_pairing {σ : Type} (env : Env σ) (device_id : Int)
    (force_refresh periodic_refresh : Bool) :
    ∀ (es : List JDict) (c : ClientState) (s : σ),
      (∀ i, (iget c.input_signature_cache i).isSome = true →
        (iget c.input_detail_cache i).isSome = true) →
      (∀ i, (iget (process_input_entries env device_id force_refresh periodic_refresh
            es c s).cst.input_signature_cache i).isSome = true →
        (iget (process_input_entries env device_id force_refresh periodic_refresh
            es c s).cst.input_detail_cache i).isSome = true) := by
  intro es
  induction es with
  | nil => intro c s hp; exact hp
  | cons entry rest ih =>
    intro c s hp
    unfold process_input_entries
    cases hident : as_py_int (py_get entry "inputId") with
    | none => exact ih _ _ hp
    | some j => exact ih _ _ (input_cache_step_pairing env device_id _ j _ c s hp)

theorem input_int_ids_cons_none (entry : JDict) (rest : List JDict)
    (h : as_py_int (py_get entry "inputId") = none) :
    input_int_ids (entry :: rest) = input_int_ids rest := by
  rw [input_int_ids_cons, h]

theorem input_int_ids_cons_some (entry : JDict) (rest : List JDict) (j : Int)
    (h : as_py_int (py_get entry "inputId") = some j) :
    input_int_ids (entry :: rest) = j :: input_int_ids rest := by
  rw [input_int_ids_cons, h]

theorem process_input_entries_sig_sound {σ : Type} (env : Env σ) (device_id : Int)
    (force_refresh periodic_refresh : Bool) :
    ∀ (es : List JDict) (c : ClientState) (s : σ),
      (input_int_ids es).Nodup →
      (∀ (c2 : ClientState) (s2 : σ), ∀ e ∈ es, ∀ i,
        as_py_int (py_get e "inputId") = some i →
        ((async_get_input_detail env i device_id c2 s2).val.isSome = true)) →
      ∀ e ∈ es, ∀ i, as_py_int (py_get e "inputId") = some i →
        iget (process_input_entries env device_id force_refresh periodic_refresh
            es c s).cst.input_signature_cache i
          = some (input_signature e) := by
  intro es
  induction es with
  | nil => intro c s _ _ e he; exact absurd he (List.not_mem_nil e)
  | cons entry rest ih =>
    intro c s hnd hsucc e he i hei
    unfold process_input_entries
    cases hident : as_py_int (py_get entry "inputId") with
    | none =>
      rw [input_int_ids_cons_none entry rest hident] at hnd
      rcases List.mem_cons.mp he with h0 | hrest
      · rw [h0, hident] at hei; cases hei
      · exact ih _ _ hnd
          (fun c2 s2 e2 he2 => hsucc c2 s2 e2 (List.mem_cons_of_mem _ he2))
          e hrest i hei
    | some j =>
      rw [input_int_ids_cons_some entry rest j hident] at hnd
      have hnd' := List.nodup_cons.mp hnd
      rcases List.mem_cons.mp he with h0 | hrest
      · have hij : i = j := by
          rw [h0, hident] at hei
          exact (Option.some_inj.mp hei).symm
        subst hij
        rw [h0]
        exact (process_input_entries_sig_frame env device_id force_refresh periodic_refresh
            rest _ _ i hnd'.1).trans
          (input_cache_step_sig_self env device_id force_refresh periodic_refresh i
            (input_signature entry) c s
            (hsucc c s entry (List.mem_cons_self _ _) i hident))
      · exact ih _ _ hnd'.2
          (fun c2 s2 e2 he2 => hsucc c2 s2 e2 (List.mem_cons_of_mem _ he2))
          e hrest i hei

theorem process_input_entries_nofetch {σ : Type} (env : Env σ) (device_id : Int) :
    ∀ (es : List JDict) (c : ClientState) (s : σ),
      (∀ e ∈ es, ∀ i, as_py_int (py_get e "inputId") = some i →
        iget c.input_signature_cache i = some (input_signature e)) →
      (process_input_entries env device_id false false es c s).cst = c ∧
      (process_input_entries env device_id false false es c s).dev = s ∧
      (process_input_entries env device_id false false es c s).reqs = [] := by
  intro es
  induction es with
  | nil => intro c s _; exact ⟨rfl, rfl, rfl⟩
  | cons entry rest ih =>
    intro c s hsig
    unfold process_input_entries
    cases hident : as_py_int (py_get entry "inputId") with
    | none => exact ih _ _ (fun e he => hsig e (List.mem_cons_of_mem _ he))
    | some j =>
      have hc : iget c.input_signature_cache j = some (input_signature entry) :=
        hsig entry (List.mem_cons_self _ _) j hident
      have hshould : (false || false ||
          (iget c.input_signature_cache j != some (input_signature entry))) = false := by
        rw [hc]; simp
      have ht := ih c s (fun e he => hsig e (List.mem_cons_of_mem _ he))
      simp only [hshould]
      exact ⟨ht.1, ht.2.1, ht.2.2⟩

theorem iget_prune_detail_of_seen {α : Type} (m : List (Int × α)) (seen : List Int)
    (i : Int) (hi : i ∈ seen) :
    iget (prune_detail m seen) i = iget m i := by
  have h := iget_filter_key (fun k => decide (k ∈ seen)) m i
  have hp : decide (i ∈ seen) = true := decide_eq_true hi
  simp only [hp, if_true] at h
  exact h

theorem iget_prune_detail_of_not_seen {α : Type} (m : List (Int × α)) (seen : List Int)
    (i : Int) (hi : i ∉ seen) :
    iget (prune_detail m seen) i = none := by
  have h := iget_filter_key (fun k => decide (k ∈ seen)) m i
  have hp : decide (i ∈ seen) = false := decide_eq_false hi
  simp only [hp, if_false] at h
  exact h

theorem iget_prune_signature_of_seen (dk : List Int) (m : List (Int × String))
    (seen : List Int) (i : Int) (hi : i ∈ seen) :
    iget (prune_signature dk m seen) i = iget m i := by
  have h := iget_filter_key (fun k => !(decide (k ∈ dk) && !decide (k ∈ seen))) m i
  have hp : (!(decide (i ∈ dk) && !decide (i ∈ seen))) = true := by
    simp [hi]
  simp only [hp, if_true] at h
  exact h

theorem iget_prune_signature_of_not_seen (dk : List Int) (m : List (Int × String))
    (seen : List Int) (i : Int) (hdk : i ∈ dk) (hi : i ∉ seen) :
    iget (prune_signature dk m seen) i = none := by
  have h := iget_filter_key (fun k => !(decide (k ∈ dk) && !decide (k ∈ seen))) m i
  have hp : (!(decide (i ∈ dk) && !decide (i ∈ seen))) = false := by
    simp [hdk, hi]
  simp only [hp, if_false] at h
  exact h

theorem inputs_poll_facts {σ : Type} (env : Env σ) (device_id : Int)
    (c : ClientState) (s : σ)
    (hne : (async_get_input_list env device_id c s).val.isEmpty = false)
    (hnd : (input_int_ids (async_get_input_list env device_id c s).val).Nodup)
    (hsucc : ∀ (c2 : ClientState) (s2 : σ),
      ∀ e ∈ (async_get_input_list env device_id c s).val, ∀ i,
        as_py_int (py_get e "inputId") = some i →
        ((async_get_input_detail env i device_id c2 s2).val.isSome = true)) :
    ((async_get_inputs_with_details env device_id c s).cst.input_refresh_counter
        = c.input_refresh_counter + 1) ∧
    ((async_get_inputs_with_details env device_id c s).cst.force_refresh_input_details
        = false) ∧
    ∀ e ∈ (async_get_input_list env device_id c s).val, ∀ i,
      as_py_int (py_get e "inputId") = some i →
      iget (async_get_inputs_with_details env device_id c s).cst.input_signature_cache i
        = some (input_signature e) := by
  cases hL : (async_get_input_list env device_id c s).val with
  | nil => rw [hL] at hne; simp at hne
  | cons e0 es0 =>
    rw [hL] at hnd hsucc
    simp only [async_get_inputs_with_details, hL, List.isEmpty_cons, Bool.false_eq_true,
      if_false]
    refine ⟨?_, ?_, ?_⟩
    · exact (process_input_entries_cst_base env device_id _ _ (e0 :: es0) _ _).1
    · exact (process_input_entries_cst_base env device_id _ _ (e0 :: es0) _ _).2
    · intro e he i hei
      have hmem : i ∈ input_int_ids (e0 :: es0) := List.mem_filterMap.mpr ⟨e, he, hei⟩
      have hseen := process_input_entries_seen env device_id
        (async_get_input_list env device_id c s).cst.force_refresh_input_details
        (((async_get_input_list env device_id c s).cst.input_refresh_counter + 1) % 12 == 0)
        (e0 :: es0)
        { (async_get_input_list env device_id c s).cst with
            input_refresh_counter :=
              (async_get_input_list env device_id c s).cst.input_refresh_counter + 1,
            force_refresh_input_details := false }
        (async_get_input_list env device_id c s).dev
      rw [iget_prune_signature_of_seen _ _ _ i (by rw [hseen]; exact hmem)]
      exact process_input_entries_sig_sound env device_id _ _ (e0 :: es0) _ _ hnd
        hsucc e he i hei

theorem async_get_input_list_cst {σ : Type} (env : Env σ) (device_id : Int)
    (c : ClientState) (s : σ) :
    (async_get_input_list env device_id c s).cst = c := rfl

theorem inputs_no_second_fetch (f : String → JValue → Option JValue) (device_id : Int)
    (c : ClientState)
    (hne : (async_get_input_list (pure_env f) device_id c ()).val.isEmpty = false)
    (hnd : (input_int_ids (async_get_input_list (pure_env f) device_id c ()).val).Nodup)
    (hsucc : ∀ e ∈ (async_get_input_list (pure_env f) device_id c ()).val, ∀ i,
      as_py_int (py_get e "inputId") = some i →
      ((async_get_input_detail (pure_env f) i device_id c ()).val.isSome = true))
    (hcnt : (c.input_refresh_counter + 2) % 12 ≠ 0) :
    ∀ q ∈ (async_get_inputs_with_details (pure_env f) device_id
        (async_get_inputs_with_details (pure_env f) device_id c ()).cst ()).reqs,
      q.endpoint ≠ "input/readDetail" := by
  have hsucc2 : ∀ (c2 : ClientState) (s2 : Unit),
      ∀ e ∈ (async_get_input_list (pure_env f) device_id c ()).val, ∀ i,
        as_py_int (py_get e "inputId") = some i →
        ((async_get_input_detail (pure_env f) i device_id c2 s2).val.isSome = true) :=
    fun _ _ => hsucc
  have hfacts := inputs_poll_facts (pure_env f) device_id c () hne hnd hsucc2
  obtain ⟨hcounter, hforce, hsigs⟩ := hfacts
  cases hL : (async_get_input_list (pure_env f) device_id c ()).val with
  | nil => rw [hL] at hne; simp at hne
  | cons e0 es0 =>
    rw [hL] at hsigs
    generalize hc2 : (async_get_inputs_with_details (pure_env f) device_id c ()).cst = cst1
    rw [hc2] at hcounter hforce hsigs
    have hL2 : (async_get_input_list (pure_env f) device_id cst1 ()).val = e0 :: es0 := hL
    have hper : ((cst1.input_refresh_counter + 1) % 12 == 0) = false := by
      rw [hcounter]
      refine beq_eq_false_iff_ne.mpr ?_
      omega
    have hnof := process_input_entries_nofetch (pure_env f) device_id (e0 :: es0)
      { cst1 with
          input_refresh_counter := cst1.input_refresh_counter + 1,
          force_refresh_input_details := false } () hsigs
    intro q hq
    simp only [async_get_inputs_with_details, hL2, List.isEmpty_cons, Bool.false_eq_true,
      if_false, async_get_input_list_cst, hforce, hper] at hq
    rcases List.mem_append.mp hq with h | h
    · have hr : (async_get_input_list (pure_env f) device_id cst1 ()).reqs
          = [⟨"input/readList", .jobj [("deviceId", .jint device_id)]⟩] := rfl
      rw [hr] at h
      rw [List.mem_singleton.mp h]
      have hdiff : ("input/readList" : String) ≠ "input/readDetail" := by decide
      exact fun hcontra => hdiff hcontra
    · rw [hnof.2.2] at h
      exact absurd h (List.not_mem_nil q)


/-! Invariants of the input-side detail-cache loop (C4, C5). -/

theorem layer_int_ids_cons (entry : JDict) (rest : List JDict) :
    layer_int_ids (entry :: rest) =
      match as_py_int (py_get entry "layerId") with
      | none => layer_int_ids rest
      | some j => j :: layer_int_ids rest := by
  simp only [layer_int_ids, List.filterMap_cons]
  cases as_py_int (py_get entry "layerId") <;> rfl

theorem layer_cache_step_cst_base {σ : Type} (env : Env σ) (device_id screen_id : Int)
    (should : Bool) (j : Int) (sig : String) (c : ClientState) (s : σ) :
    ((layer_cache_step env device_id screen_id should j sig c s).1.layer_refresh_counter
        = c.layer_refresh_counter) ∧
    ((layer_cache_step env device_id screen_id should j sig c s).1.force_refresh_layer_details
        = c.force_refresh_layer_details) := by
  unfold layer_cache_step
  split
  · cases hdet : (async_get_layer_detail env j device_id screen_id c s).val with
    | some d => simp only [hdet]; exact ⟨rfl, rfl⟩
    | none => simp only [hdet]; exact ⟨rfl, rfl⟩
  · exact ⟨rfl, rfl⟩

theorem layer_cache_step_sig_other {σ : Type} (env : Env σ) (device_id screen_id : Int)
    (should : Bool) (j : Int) (sig : String) (c : ClientState) (s : σ) (k : Int)
    (hk : k ≠ j) :
    iget (layer_cache_step env device_id screen_id should j sig c s).1.layer_signature_cache k
      = iget c.layer_signature_cache k := by
  unfold layer_cache_step
  split
  · cases hdet : (async_get_layer_detail env j device_id screen_id c s).val with
    | some d => simp only [hdet]; exact iget_iset_other _ _ _ _ hk
    | none => simp only [hdet]; rfl
  · rfl

theorem layer_cache_step_pairing {σ : Type} (env : Env σ) (device_id screen_id : Int)
    (should : Bool) (j : Int) (sig : String) (c : ClientState) (s : σ)
    (hp : ∀ i, (iget c.layer_signature_cache i).isSome = true →
      (iget c.layer_detail_cache i).isSome = true) :
    ∀ i, (iget (layer_cache_step env device_id screen_id should j sig c s).1.layer_signature_cache i).isSome
        = true →
      (iget (layer_cache_step env device_id screen_id should j sig c s).1.layer_detail_cache i).isSome
        = true := by
  unfold layer_cache_step
  split
  · cases hdet : (async_get_layer_detail env j device_id screen_id c s).val with
    | some d =>
      simp only [hdet]
      intro i hi
      by_cases hij : i = j
      · subst hij
        simp [iget_iset_self]
      · rw [iget_iset_other _ _ _ _ hij] at hi ⊢
        exact hp i hi
    | none => simp only [hdet]; exact hp
  · exact hp

theorem layer_cache_step_sig_self {σ : Type} (env : Env σ) (device_id screen_id : Int)
    (force periodic : Bool) (j : Int) (sig : String) (c : ClientState) (s : σ)
    (hsucc : ((async_get_layer_detail env j device_id screen_id c s).val.isSome = true)) :
    iget (layer_cache_step env device_id screen_id
        (force || periodic || (iget c.layer_signature_cache j != some sig))
        j sig c s).1.layer_signature_cache j
      = some sig := by
  by_cases hs : (force || periodic || (iget c.layer_signature_cache j != some sig)) = true
  · rw [hs]
    unfold layer_cache_step
    cases hdet : (async_get_layer_detail env j device_id screen_id c s).val with
    | some d => simp only [hdet, if_true]; exact iget_iset_self _ _ _
    | none => rw [hdet] at hsucc; simp at hsucc
  · have hX : (force || periodic || (iget c.layer_signature_cache j != some sig)) = false :=
      Bool.eq_false_iff.mpr hs
    have hbne : (iget c.layer_signature_cache j != some sig) = false :=
      (Bool.or_eq_false_iff.mp hX).2
    have hc : iget c.layer_signature_cache j = some sig := by
      simpa using hbne
    rw [hX]
    exact hc

theorem process_layer_entries_seen {σ : Type} (env : Env σ) (device_id screen_id : Int)
    (force_refresh periodic_refresh : Bool) :
    ∀ (es : List JDict) (c : ClientState) (s : σ),
      (process_layer_entries env device_id screen_id force_refresh periodic_refresh es c s).seen
        = layer_int_ids es := by
  intro es
  induction es with
  | nil => intro c s; rfl
  | cons entry rest ih =>
    intro c s
    unfold process_layer_entries
    rw [layer_int_ids_cons]
    cases hident : as_py_int (py_get entry "layerId") with
    | none => exact ih _ _
    | some j => exact congrArg (List.cons j) (ih _ _)

theorem process_layer_entries_cst_base {σ : Type} (env : Env σ) (device_id screen_id : Int)
    (force_refresh periodic_refresh : Bool) :
    ∀ (es : List JDict) (c : ClientState) (s : σ),
      ((process_layer_entries env device_id screen_id force_refresh periodic_refresh es c s).cst.layer_refresh_counter
        = c.layer_refresh_counter) ∧
      ((process_layer_entries env device_id screen_id force_refresh periodic_refresh es c s).cst.force_refresh_layer_details
        = c.force_refresh_layer_details) := by
  intro es
  induction es with
  | nil => intro c s; exact ⟨rfl, rfl⟩
  | cons entry rest ih =>
    intro c s
    unfold process_layer_entries
    cases hident : as_py_int (py_get entry "layerId") with
    | none => exact ih _ _
    | some j =>
      refine ⟨(ih _ _).1.trans (layer_cache_step_cst_base env device_id screen_id _ j _ c s).1,
        (ih _ _).2.trans (layer_cache_step_cst_base env device_id screen_id _ j _ c s).2⟩

theorem process_layer_entries_sig_frame {σ : Type} (env : Env σ) (device_id screen_id : Int)
    (force_refresh periodic_refresh : Bool) :
    ∀ (es : List JDict) (c : ClientState) (s : σ) (k : Int), k ∉ layer_int_ids es →
      iget (process_layer_entries env device_id screen_id force_refresh periodic_refresh
          es c s).cst.layer_signature_cache k
        = iget c.layer_signature_cache k := by
  intro es
  induction es with
  | nil => intro c s k _; rfl
  | cons entry rest ih =>
    intro c s k hk
    rw [layer_int_ids_cons] at hk
    unfold process_layer_entries
    cases hident : as_py_int (py_get entry "layerId") with
    | none =>
      rw [hident] at hk
      exact ih _ _ _ hk
    | some j =>
      rw [hident] at hk
      simp only [List.mem_cons, not_or] at hk
      obtain ⟨hkj, hkrest⟩ := hk
      exact (ih _ _ _ hkrest).trans (layer_cache_step_sig_other env device_id screen_id _ j _ c s k hkj)

theorem process_layer_entries_pairing {σ : Type} (env : Env σ) (device_id screen_id : Int)
    (force_refresh periodic_refresh : Bool) :
    ∀ (es : List JDict) (c : ClientState) (s : σ),
      (∀ i, (iget c.layer_signature_cache i).isSome = true →
        (iget c.layer_detail_cache i).isSome = true) →
      (∀ i, (iget (process_layer_entries env device_id screen_id force_refresh periodic_refresh
            es c s).cst.layer_signature_cache i).isSome = true →
        (iget (process_layer_entries env device_id screen_id force_refresh periodic_refresh
            es c s).cst.layer_detail_cache i).isSome = true) := by
  intro es
  induction es with
  | nil => intro c s hp; exact hp
  | cons entry rest ih =>
    intro c s hp
    unfold process_layer_entries
    cases hident : as_py_int (py_get entry "layerId") with
    | none => exact ih _ _ hp
    | some j => exact ih _ _ (layer_cache_step_pairing env device_id screen_id _ j _ c s hp)

theorem layer_int_ids_cons_none (entry : JDict) (rest : List JDict)
    (h : as_py_int (py_get entry "layerId") = none) :
    layer_int_ids (entry :: rest) = layer_int_ids rest := by
  rw [layer_int_ids_cons, h]

theorem layer_int_ids_cons_some (entry : JDict) (rest : List JDict) (j : Int)
    (h : as_py_int (py_get entry "layerId") = some j) :
    layer_int_ids (entry :: rest) = j :: layer_int_ids rest := by
  rw [layer_int_ids_cons, h]

theorem process_layer_entries_sig_sound {σ : Type} (env : Env σ) (device_id screen_id : Int)
    (force_refresh periodic_refresh : Bool) :
    ∀ (es : List JDict) (c : ClientState) (s : σ),
      (layer_int_ids es).Nodup →
      (∀ (c2 : ClientState) (s2 : σ), ∀ e ∈ es, ∀ i,
        as_py_int (py_get e "layerId") = some i →
        ((async_get_layer_detail env i device_id screen_id c2 s2).val.isSome = true)) →
      ∀ e ∈ es, ∀ i, as_py_int (py_get e "layerId") = some i →
        iget (process_layer_entries env device_id screen_id force_refresh periodic_refresh
            es c s).cst.layer_signature_cache i
          = some (layer_signature e) := by
  intro es
  induction es with
  | nil => intro c s _ _ e he; exact absurd he (List.not_mem_nil e)
  | cons entry rest ih =>
    intro c s hnd hsucc e he i hei
    unfold process_layer_entries
    cases hident : as_py_int (py_get entry "layerId") with
    | none =>
      rw [layer_int_ids_cons_none entry rest hident] at hnd
      rcases List.mem_cons.mp he with h0 | hrest
      · rw [h0, hident] at hei; cases hei
      · exact ih _ _ hnd
          (fun c2 s2 e2 he2 => hsucc c2 s2 e2 (List.mem_cons_of_mem _ he2))
          e hrest i hei
    | some j =>
      rw [layer_int_ids_cons_some entry rest j hident] at hnd
      have hnd' := List.nodup_cons.mp hnd
      rcases List.mem_cons.mp he with h0 | hrest
      · have hij : i = j := by
          rw [h0, hident] at hei
          exact (Option.some_inj.mp hei).symm
        subst hij
        rw [h0]
        exact (process_layer_entries_sig_frame env device_id screen_id force_refresh periodic_refresh
            rest _ _ i hnd'.1).trans
          (layer_cache_step_sig_self env device_id screen_id force_refresh periodic_refresh i
            (layer_signature entry) c s
            (hsucc c s entry (List.mem_cons_self _ _) i hident))
      · exact ih _ _ hnd'.2
          (fun c2 s2 e2 he2 => hsucc c2 s2 e2 (List.mem_cons_of_mem _ he2))
          e hrest i hei

theorem process_layer_entries_nofetch {σ : Type} (env : Env σ) (device_id screen_id : Int) :
    ∀ (es : List JDict) (c : ClientState) (s : σ),
      (∀ e ∈ es, ∀ i, as_py_int (py_get e "layerId") = some i →
        iget c.layer_signature_cache i = some (layer_signature e)) →
      (process_layer_entries env device_id screen_id false false es c s).cst = c ∧
      (process_layer_entries env device_id screen_id false false es c s).dev = s ∧
      (process_layer_entries env device_id screen_id false false es c s).reqs = [] := by
  intro es
  induction es with
  | nil => intro c s _; exact ⟨rfl, rfl, rfl⟩
  | cons entry rest ih =>
    intro c s hsig
    unfold process_layer_entries
    cases hident : as_py_int (py_get entry "layerId") with
    | none => exact ih _ _ (fun e he => hsig e (List.mem_cons_of_mem _ he))
    | some j =>
      have hc : iget c.layer_signature_cache j = some (layer_signature entry) :=
        hsig entry (List.mem_cons_self _ _) j hident
      have hshould : (false || false ||
          (iget c.layer_signature_cache j != some (layer_signature entry))) = false := by
        rw [hc]; simp
      have ht := ih c s (fun e he => hsig e (List.mem_cons_of_mem _ he))
      simp only [hshould]
      exact ⟨ht.1, ht.2.1, ht.2.2⟩

theorem layers_poll_facts {σ : Type} (env : Env σ) (device_id screen_id : Int)
    (c : ClientState) (s : σ)
    (hne : (async_get_layer_list env device_id screen_id c s).val.isEmpty = false)
    (hnd : (layer_int_ids (async_get_layer_list env device_id screen_id c s).val).Nodup)
    (hsucc : ∀ (c2 : ClientState) (s2 : σ),
      ∀ e ∈ (async_get_layer_list env device_id screen_id c s).val, ∀ i,
        as_py_int (py_get e "layerId") = some i →
        ((async_get_layer_detail env i device_id screen_id c2 s2).val.isSome = true)) :
    ((async_get_layers_with_details env device_id screen_id c s).cst.layer_refresh_counter
        = c.layer_refresh_counter + 1) ∧
    ((async_get_layers_with_details env device_id screen_id c s).cst.force_refresh_layer_details
        = false) ∧
    ∀ e ∈ (async_get_layer_list env device_id screen_id c s).val, ∀ i,
      as_py_int (py_get e "layerId") = some i →
      iget (async_get_layers_with_details env device_id screen_id c s).cst.layer_signature_cache i
        = some (layer_signature e) := by
  cases hL : (async_get_layer_list env device_id screen_id c s).val with
  | nil => rw [hL] at hne; simp at hne
  | cons e0 es0 =>
    rw [hL] at hnd hsucc
    simp only [async_get_layers_with_details, hL, List.isEmpty_cons, Bool.false_eq_true,
      if_false]
    refine ⟨?_, ?_, ?_⟩
    · exact (process_layer_entries_cst_base env device_id screen_id _ _ (e0 :: es0) _ _).1
    · exact (process_layer_entries_cst_base env device_id screen_id _ _ (e0 :: es0) _ _).2
    · intro e he i hei
      have hmem : i ∈ layer_int_ids (e0 :: es0) := List.mem_filterMap.mpr ⟨e, he, hei⟩
      have hseen := process_layer_entries_seen env device_id screen_id
        (async_get_layer_list env device_id screen_id c s).cst.force_refresh_layer_details
        (((async_get_layer_list env device_id screen_id c s).cst.layer_refresh_counter + 1) % 12 == 0)
        (e0 :: es0)
        { (async_get_layer_list env device_id screen_id c s).cst with
            layer_refresh_counter :=
              (async_get_layer_list env device_id screen_id c s).cst.layer_refresh_counter + 1,
            force_refresh_layer_details := false }
        (async_get_layer_list env device_id screen_id c s).dev
      rw [iget_prune_signature_of_seen _ _ _ i (by rw [hseen]; exact hmem)]
      exact process_layer_entries_sig_sound env device_id screen_id _ _ (e0 :: es0) _ _ hnd
        hsucc e he i hei

theorem async_get_layer_list_cst {σ : Type} (env : Env σ) (device_id screen_id : Int)
    (c : ClientState) (s : σ) :
    (async_get_layer_list env device_id screen_id c s).cst = c := rfl

theorem layers_no_second_fetch (f : String → JValue → Option JValue) (device_id screen_id : Int)
    (c : ClientState)
    (hne : (async_get_layer_list (pure_env f) device_id screen_id c ()).val.isEmpty = false)
    (hnd : (layer_int_ids (async_get_layer_list (pure_env f) device_id screen_id c ()).val).Nodup)
    (hsucc : ∀ e ∈ (async_get_layer_list (pure_env f) device_id screen_id c ()).val, ∀ i,
      as_py_int (py_get e "layerId") = some i →
      ((async_get_layer_detail (pure_env f) i device_id screen_id c ()).val.isSome = true))
    (hcnt : (c.layer_refresh_counter + 2) % 12 ≠ 0) :
    ∀ q ∈ (async_get_layers_with_details (pure_env f) device_id screen_id
        (async_get_layers_with_details (pure_env f) device_id screen_id c ()).cst ()).reqs,
      q.endpoint ≠ "layer/readDetail" := by
  have hsucc2 : ∀ (c2 : ClientState) (s2 : Unit),
      ∀ e ∈ (async_get_layer_list (pure_env f) device_id screen_id c ()).val, ∀ i,
        as_py_int (py_get e "layerId") = some i →
        ((async_get_layer_detail (pure_env f) i device_id screen_id c2 s2).val.isSome = true) :=
    fun _ _ => hsucc
  have hfacts := layers_poll_facts (pure_env f) device_id screen_id c () hne hnd hsucc2
  obtain ⟨hcounter, hforce, hsigs⟩ := hfacts
  cases hL : (async_get_layer_list (pure_env f) device_id screen_id c ()).val with
  | nil => rw [hL] at hne; simp at hne
  | cons e0 es0 =>
    rw [hL] at hsigs
    generalize hc2 : (async_get_layers_with_details (pure_env f) device_id screen_id c ()).cst = cst1
    rw [hc2] at hcounter hforce hsigs
    have hL2 : (async_get_layer_list (pure_env f) device_id screen_id cst1 ()).val = e0 :: es0 := hL
    have hper : ((cst1.layer_refresh_counter + 1) % 12 == 0) = false := by
      rw [hcounter]
      refine beq_eq_false_iff_ne.mpr ?_
      omega
    have hnof := process_layer_entries_nofetch (pure_env f) device_id screen_id (e0 :: es0)
      { cst1 with
          layer_refresh_counter := cst1.layer_refresh_counter + 1,
          force_refresh_layer_details := false } () hsigs
    intro q hq
    simp only [async_get_layers_with_details, hL2, List.isEmpty_cons, Bool.false_eq_true,
      if_false, async_get_layer_list_cst, hforce, hper] at hq
    rcases List.mem_append.mp hq with h | h
    · have hr : (async_get_layer_list (pure_env f) device_id screen_id cst1 ()).reqs
          = [⟨"layer/detailList", .jobj [("deviceId", .jint device_id), ("screenId", .jint screen_id)]⟩] := rfl
      rw [hr] at h
      rw [List.mem_singleton.mp h]
      have hdiff : ("layer/detailList" : String) ≠ "layer/readDetail" := by decide
      exact fun hcontra => hdiff hcontra
    · rw [hnof.2.2] at h
      exact absurd h (List.not_mem_nil q)

/-- C4: with distinct entity ids, a second poll of an unchanged device
issues no per-entity detail fetch (outside the periodic boundary). -/
theorem c4_second_poll_no_detail_fetch
    (f : String → JValue → Option JValue) (device_id screen_id : Int) (c : ClientState)
    (hne : (async_get_input_list (pure_env f) device_id c ()).val.isEmpty = false)
    (hnd : (input_int_ids (async_get_input_list (pure_env f) device_id c ()).val).Nodup)
    (hsucc : ∀ e ∈ (async_get_input_list (pure_env f) device_id c ()).val, ∀ i,
      as_py_int (py_get e "inputId") = some i →
      ((async_get_input_detail (pure_env f) i device_id c ()).val.isSome = true))
    (hcnt : (c.input_refresh_counter + 2) % 12 ≠ 0)
    (hneL : (async_get_layer_list (pure_env f) device_id screen_id c ()).val.isEmpty = false)
    (hndL : (layer_int_ids (async_get_layer_list (pure_env f) device_id screen_id c ()).val).Nodup)
    (hsuccL : ∀ e ∈ (async_get_layer_list (pure_env f) device_id screen_id c ()).val, ∀ i,
      as_py_int (py_get e "layerId") = some i →
      ((async_get_layer_detail (pure_env f) i device_id screen_id c ()).val.isSome = true))
    (hcntL : (c.layer_refresh_counter + 2) % 12 ≠ 0) :
    (∀ q ∈ (async_get_inputs_with_details (pure_env f) device_id
        (async_get_inputs_with_details (pure_env f) device_id c ()).cst ()).reqs,
      q.endpoint ≠ "input/readDetail") ∧
    (∀ q ∈ (async_get_layers_with_details (pure_env f) device_id screen_id
        (async_get_layers_with_details (pure_env f) device_id screen_id c ()).cst ()).reqs,
      q.endpoint ≠ "layer/readDetail") :=
  ⟨inputs_no_second_fetch f device_id c hne hnd hsucc hcnt,
   layers_no_second_fetch f device_id screen_id c hneL hndL hsuccL hcntL⟩

/-- C4 witness: a stable single-input, single-layer device issues no
detail fetch on the second poll. -/
theorem c4_second_poll_no_detail_fetch_witness :
    (∀ q ∈ (async_get_inputs_with_details (pure_env w5_send) 0
        (async_get_inputs_with_details (pure_env w5_send) 0 ClientState.init ()).cst ()).reqs,
      q.endpoint ≠ "input/readDetail") ∧
    (∀ q ∈ (async_get_layers_with_details (pure_env w5_send) 0 0
        (async_get_layers_with_details (pure_env w5_send) 0 0 ClientState.init ()).cst ()).reqs,
      q.endpoint ≠ "layer/readDetail") :=
  c4_second_poll_no_detail_fetch w5_send 0 0 ClientState.init
    rfl (by decide) (fun _ _ _ _ => rfl) (by decide)
    rfl (by decide) (fun _ _ _ _ => rfl) (by decide)

/-- C4 counterexample: an unchanged device whose list repeats the id 1
still triggers two detail fetches on the second poll, with the force
flag down and away from the periodic boundary. -/
theorem c4_counterexample :
    ((async_get_inputs_with_details cex4_env 0 ClientState.init ()).cst.force_refresh_input_details
        = false) ∧
    ((async_get_inputs_with_details cex4_env 0 ClientState.init ()).cst.input_refresh_counter
        = 1) ∧
    ((1 + 1) % 12 ≠ 0) ∧
    (((async_get_inputs_with_details cex4_env 0
        (async_get_inputs_with_details cex4_env 0 ClientState.init ()).cst ()).reqs.filter
          (fun q => q.endpoint == "input/readDetail")).length = 2) :=
  ⟨rfl, rfl, by decide, rfl⟩

theorem iget_prune_signature_of_none (dk : List Int) (m : List (Int × String))
    (seen : List Int) (i : Int) (h : iget m i = none) :
    iget (prune_signature dk m seen) i = none := by
  have h2 := iget_filter_key (fun k => !(decide (k ∈ dk) && !decide (k ∈ seen))) m i
  rw [h, ite_self] at h2
  exact h2

theorem inputs_prune_absent {σ : Type} (env : Env σ) (device_id : Int)
    (c : ClientState) (s : σ) (i : Int)
    (hne : (async_get_input_list env device_id c s).val.isEmpty = false)
    (hpair : ∀ k, (iget c.input_signature_cache k).isSome = true →
      (iget c.input_detail_cache k).isSome = true)
    (hi : i ∉ input_int_ids (async_get_input_list env device_id c s).val) :
    iget (async_get_inputs_with_details env device_id c s).cst.input_detail_cache i = none ∧
    iget (async_get_inputs_with_details env device_id c s).cst.input_signature_cache i
      = none := by
  cases hL : (async_get_input_list env device_id c s).val with
  | nil => rw [hL] at hne; simp at hne
  | cons e0 es0 =>
    rw [hL] at hi
    simp only [async_get_inputs_with_details, hL, List.isEmpty_cons, Bool.false_eq_true,
      if_false]
    have hseen := process_input_entries_seen env device_id
      (async_get_input_list env device_id c s).cst.force_refresh_input_details
      (((async_get_input_list env device_id c s).cst.input_refresh_counter + 1) % 12 == 0)
      (e0 :: es0)
      { (async_get_input_list env device_id c s).cst with
          input_refresh_counter :=
            (async_get_input_list env device_id c s).cst.input_refresh_counter + 1,
          force_refresh_input_details := false }
      (async_get_input_list env device_id c s).dev
    constructor
    · exact iget_prune_detail_of_not_seen _ _ i (by rw [hseen]; exact hi)
    · cases hsig : iget (process_input_entries env device_id
          (async_get_input_list env device_id c s).cst.force_refresh_input_details
          (((async_get_input_list env device_id c s).cst.input_refresh_counter + 1) % 12 == 0)
          (e0 :: es0)
          { (async_get_input_list env device_id c s).cst with
              input_refresh_counter :=
                (async_get_input_list env device_id c s).cst.input_refresh_counter + 1,
              force_refresh_input_details := false }
          (async_get_input_list env device_id c s).dev).cst.input_signature_cache i with
      | none => exact iget_prune_signature_of_none _ _ _ i hsig
      | some v =>
        have hsome : (iget (process_input_entries env device_id
            (async_get_input_list env device_id c s).cst.force_refresh_input_details
            (((async_get_input_list env device_id c s).cst.input_refresh_counter + 1) % 12 == 0)
            (e0 :: es0)
            { (async_get_input_list env device_id c s).cst with
                input_refresh_counter :=
                  (async_get_input_list env device_id c s).cst.input_refresh_counter + 1,
                force_refresh_input_details := false }
            (async_get_input_list env device_id c s).dev).cst.input_signature_cache i).isSome
            = true := by
          rw [hsig]; rfl
        have hdet := process_input_entries_pairing env device_id
          (async_get_input_list env device_id c s).cst.force_refresh_input_details
          (((async_get_input_list env device_id c s).cst.input_refresh_counter + 1) % 12 == 0)
          (e0 :: es0)
          { (async_get_input_list env device_id c s).cst with
              input_refresh_counter :=
                (async_get_input_list env device_id c s).cst.input_refresh_counter + 1,
              force_refresh_input_details := false }
          (async_get_input_list env device_id c s).dev hpair i hsome
        exact iget_prune_signature_of_not_seen _ _ _ i
          (iget_isSome_mem_keys _ i hdet) (by rw [hseen]; exact hi)

theorem layers_prune_absent {σ : Type} (env : Env σ) (device_id screen_id : Int)
    (c : ClientState) (s : σ) (i : Int)
    (hne : (async_get_layer_list env device_id screen_id c s).val.isEmpty = false)
    (hpair : ∀ k, (iget c.layer_signature_cache k).isSome = true →
      (iget c.layer_detail_cache k).isSome = true)
    (hi : i ∉ layer_int_ids (async_get_layer_list env device_id screen_id c s).val) :
    iget (async_get_layers_with_details env device_id screen_id c s).cst.layer_detail_cache i = none ∧
    iget (async_get_layers_with_details env device_id screen_id c s).cst.layer_signature_cache i
      = none := by
  cases hL : (async_get_layer_list env device_id screen_id c s).val with
  | nil => rw [hL] at hne; simp at hne
  | cons e0 es0 =>
    rw [hL] at hi
    simp only [async_get_layers_with_details, hL, List.isEmpty_cons, Bool.false_eq_true,
      if_false]
    have hseen := process_layer_entries_seen env device_id screen_id
      (async_get_layer_list env device_id screen_id c s).cst.force_refresh_layer_details
      (((async_get_layer_list env device_id screen_id c s).cst.layer_refresh_counter + 1) % 12 == 0)
      (e0 :: es0)
      { (async_get_layer_list env device_id screen_id c s).cst with
          layer_refresh_counter :=
            (async_get_layer_list env device_id screen_id c s).cst.layer_refresh_counter + 1,
          force_refresh_layer_details := false }
      (async_get_layer_list env device_id screen_id c s).dev
    constructor
    · exact iget_prune_detail_of_not_seen _ _ i (by rw [hseen]; exact hi)
    · cases hsig : iget (process_layer_entries env device_id screen_id
          (async_get_layer_list env device_id screen_id c s).cst.force_refresh_layer_details
          (((async_get_layer_list env device_id screen_id c s).cst.layer_refresh_counter + 1) % 12 == 0)
          (e0 :: es0)
          { (async_get_layer_list env device_id screen_id c s).cst with
              layer_refresh_counter :=
                (async_get_layer_list env device_id screen_id c s).cst.layer_refresh_counter + 1,
              force_refresh_layer_details := false }
          (async_get_layer_list env device_id screen_id c s).dev).cst.layer_signature_cache i with
      | none => exact iget_prune_signature_of_none _ _ _ i hsig
      | some v =>
        have hsome : (iget (process_layer_entries env device_id screen_id
            (async_get_layer_list env device_id screen_id c s).cst.force_refresh_layer_details
            (((async_get_layer_list env device_id screen_id c s).cst.layer_refresh_counter + 1) % 12 == 0)
            (e0 :: es0)
            { (async_get_layer_list env device_id screen_id c s).cst with
                layer_refresh_counter :=
                  (async_get_layer_list env device_id screen_id c s).cst.layer_refresh_counter + 1,
                force_refresh_layer_details := false }
            (async_get_layer_list env device_id screen_id c s).dev).cst.layer_signature_cache i).isSome
            = true := by
          rw [hsig]; rfl
        have hdet := process_layer_entries_pairing env device_id screen_id
          (async_get_layer_list env device_id screen_id c s).cst.force_refresh_layer_details
          (((async_get_layer_list env device_id screen_id c s).cst.layer_refresh_counter + 1) % 12 == 0)
          (e0 :: es0)
          { (async_get_layer_list env device_id screen_id c s).cst with
              layer_refresh_counter :=
                (async_get_layer_list env device_id screen_id c s).cst.layer_refresh_counter + 1,
              force_refresh_layer_details := false }
          (async_get_layer_list env device_id screen_id c s).dev hpair i hsome
        exact iget_prune_signature_of_not_seen _ _ _ i
          (iget_isSome_mem_keys _ i hdet) (by rw [hseen]; exact hi)


/-- C5: with paired caches and a non-empty list response, an id absent
from the current cycle's list has no cache entry after the cycle. -/
theorem c5_absent_id_pruned {σ : Type} (env : Env σ) (device_id screen_id : Int)
    (c : ClientState) (s : σ) (i : Int)
    (hne : (async_get_input_list env device_id c s).val.isEmpty = false)
    (hpair : ∀ k, (iget c.input_signature_cache k).isSome = true →
      (iget c.input_detail_cache k).isSome = true)
    (hi : i ∉ input_int_ids (async_get_input_list env device_id c s).val)
    (hneL : (async_get_layer_list env device_id screen_id c s).val.isEmpty = false)
    (hpairL : ∀ k, (iget c.layer_signature_cache k).isSome = true →
      (iget c.layer_detail_cache k).isSome = true)
    (hiL : i ∉ layer_int_ids (async_get_layer_list env device_id screen_id c s).val) :
    (iget (async_get_inputs_with_details env device_id c s).cst.input_detail_cache i = none ∧
     iget (async_get_inputs_with_details env device_id c s).cst.input_signature_cache i
       = none) ∧
    (iget (async_get_layers_with_details env device_id screen_id c s).cst.layer_detail_cache i
       = none ∧
     iget (async_get_layers_with_details env device_id screen_id c s).cst.layer_signature_cache i
       = none) :=
  ⟨inputs_prune_absent env device_id c s i hne hpair hi,
   layers_prune_absent env device_id screen_id c s i hneL hpairL hiL⟩

/-- C5 witness: on the stable witness device, the id 5 (absent from both
lists) has no cache entry after a poll. -/
theorem c5_absent_id_pruned_witness :
    (iget (async_get_inputs_with_details w5_env 0 ClientState.init ()).cst.input_detail_cache 5
       = none ∧
     iget (async_get_inputs_with_details w5_env 0 ClientState.init ()).cst.input_signature_cache 5
       = none) ∧
    (iget (async_get_layers_with_details w5_env 0 0 ClientState.init ()).cst.layer_detail_cache 5
       = none ∧
     iget (async_get_layers_with_details w5_env 0 0 ClientState.init ()).cst.layer_signature_cache 5
       = none) :=
  c5_absent_id_pruned w5_env 0 0 ClientState.init () 5
    rfl (fun _ h => nomatch h) (by decide)
    rfl (fun _ h => nomatch h) (by decide)

/-- C5 counterexample: input 1 is listed in cycle N and absent from
cycle N+1's (empty) list response, yet both of its cache entries are
still present after cycle N+1. -/
theorem c5_counterexample :
    (input_int_ids (async_get_input_list cex5_env 0 ClientState.init 0).val = [1]) ∧
    ((async_get_input_list cex5_env 0
        (async_get_inputs_with_details cex5_env 0 ClientState.init 0).cst
        (async_get_inputs_with_details cex5_env 0 ClientState.init 0).dev).val = []) ∧
    ((iget (async_get_inputs_with_details cex5_env 0
        (async_get_inputs_with_details cex5_env 0 ClientState.init 0).cst
        (async_get_inputs_with_details cex5_env 0 ClientState.init 0).dev).cst.input_detail_cache
        1).isSome = true) ∧
    ((iget (async_get_inputs_with_details cex5_env 0
        (async_get_inputs_with_details cex5_env 0 ClientState.init 0).cst
        (async_get_inputs_with_details cex5_env 0 ClientState.init 0).dev).cst.input_signature_cache
        1).isSome = true) :=
  ⟨rfl, rfl, rfl, rfl⟩

theorem ecb_apply_nil (f : List Nat → List Nat) : ecb_apply f [] = [] := by
  rw [ecb_apply]
  rfl

theorem ecb_apply_ne (f : List Nat → List Nat) (bs : List Nat) (h : bs.isEmpty = false) :
    ecb_apply f bs = f (bs.take 8) ++ ecb_apply f (bs.drop 8) := by
  rw [ecb_apply, h]
  rfl

theorem ecb_apply_bytes (f : List Nat → List Nat)
    (hf : ∀ block, block.length = 8 → (∀ b ∈ block, b < 256) → ∀ b ∈ f block, b < 256)
    (bs : List Nat) (hmod : bs.length % 8 = 0) (hbytes : ∀ b ∈ bs, b < 256) :
    ∀ b ∈ ecb_apply f bs, b < 256 := by
  suffices h : ∀ n (l : List Nat), l.length ≤ n → l.length % 8 = 0 → (∀ b ∈ l, b < 256) →
      ∀ b ∈ ecb_apply f l, b < 256 from h bs.length bs le_rfl hmod hbytes
  intro n
  induction n with
  | zero =>
    intro l hle _ _ b hb
    have hl : l = [] := List.eq_nil_of_length_eq_zero (Nat.le_zero.mp hle)
    rw [hl, ecb_apply_nil] at hb
    exact absurd hb (List.not_mem_nil b)
  | succ n ih =>
    intro l hle hm hb b hmem
    cases hl : l.isEmpty with
    | true =>
      rw [List.isEmpty_iff.mp hl, ecb_apply_nil] at hmem
      exact absurd hmem (List.not_mem_nil b)
    | false =>
      have hpos : 0 < l.length := by
        cases l with
        | nil => simp at hl
        | cons a t => simp
      have hlen8 : 8 ≤ l.length := by omega
      rw [ecb_apply_ne f l hl] at hmem
      rcases List.mem_append.mp hmem with h1 | h1
      · exact hf (l.take 8) (by rw [List.length_take]; omega)
          (fun x hx => hb x (List.take_subset _ _ hx)) b h1
      · exact ih (l.drop 8) (by rw [List.length_drop]; omega)
          (by rw [List.length_drop]; omega)
          (fun x hx => hb x (List.drop_subset _ _ hx)) b h1

theorem ecb_roundtrip (enc dec : List Nat → List Nat)
    (hlen : ∀ block, block.length = 8 → (enc block).length = 8)
    (hrt : ∀ block, block.length = 8 → (∀ b ∈ block, b < 256) → dec (enc block) = block)
    (bs : List Nat) (hmod : bs.length % 8 = 0) (hbytes : ∀ b ∈ bs, b < 256) :
    ecb_apply dec (ecb_apply enc bs) = bs := by
  suffices h : ∀ n (l : List Nat), l.length ≤ n → l.length % 8 = 0 → (∀ b ∈ l, b < 256) →
      ecb_apply dec (ecb_apply enc l) = l from h bs.length bs le_rfl hmod hbytes
  intro n
  induction n with
  | zero =>
    intro l hle _ _
    rw [List.eq_nil_of_length_eq_zero (Nat.le_zero.mp hle), ecb_apply_nil, ecb_apply_nil]
  | succ n ih =>
    intro l hle hm hb
    cases hl : l.isEmpty with
    | true => rw [List.isEmpty_iff.mp hl, ecb_apply_nil, ecb_apply_nil]
    | false =>
      have hpos : 0 < l.length := by
        cases l with
        | nil => simp at hl
        | cons a t => simp
      have hlen8 : 8 ≤ l.length := by omega
      have ht8 : (l.take 8).length = 8 := by rw [List.length_take]; omega
      have henc8 : (enc (l.take 8)).length = 8 := hlen _ ht8
      rw [ecb_apply_ne enc l hl]
      have hne2 : ((enc (l.take 8)) ++ ecb_apply enc (l.drop 8)).isEmpty = false := by
        cases hcase : enc (l.take 8) with
        | nil => rw [hcase] at henc8; simp at henc8
        | cons a t => rfl
      rw [ecb_apply_ne dec _ hne2]
      rw [List.take_left' henc8, List.drop_left' henc8]
      rw [hrt (l.take 8) ht8 (fun x hx => hb x (List.take_subset _ _ hx))]
      rw [ih (l.drop 8) (by rw [List.length_drop]; omega) (by rw [List.length_drop]; omega)
        (fun x hx => hb x (List.drop_subset _ _ hx))]
      exact List.take_append_drop 8 l

theorem pkcs5_roundtrip (bs : List Nat) : pkcs5_unpad (pkcs5_pad bs) = bs := by
  simp only [pkcs5_pad, pkcs5_unpad]
  obtain ⟨m, hm⟩ : ∃ m, 8 - bs.length % 8 = m + 1 := ⟨7 - bs.length % 8, by omega⟩
  rw [hm, List.replicate_succ', ← List.append_assoc, List.getLast?_concat]
  simp only [Option.getD_some]
  rw [if_neg (Nat.succ_ne_zero m)]
  have hlen : ((bs ++ List.replicate m (m + 1)) ++ [m + 1]).length - (m + 1) = bs.length := by
    simp [List.length_append, List.length_replicate]
  rw [hlen, List.append_assoc, List.take_left' rfl]

theorem pkcs5_pad_mod (bs : List Nat) : (pkcs5_pad bs).length % 8 = 0 := by
  simp only [pkcs5_pad, List.length_append, List.length_replicate]
  omega

theorem pkcs5_pad_bytes (bs : List Nat) (hb : ∀ b ∈ bs, b < 256) :
    ∀ b ∈ pkcs5_pad bs, b < 256 := by
  intro b hmem
  simp only [pkcs5_pad] at hmem
  rcases List.mem_append.mp hmem with h | h
  · exact hb b h
  · have := (List.mem_replicate.mp h).2
    omega

/-- C8: with encryption enabled, `_decrypt_body` inverts `_encrypt_body`
(api.py 159-201): whenever the external primitives behave as pyDes,
`json` and `base64` do — Base64 decode inverts encode on byte lists, the
DES block function is a length-preserving byte-valued permutation of
8-byte blocks inverted by its decrypt direction under the same derived
key, and `json.loads` inverts `json.dumps` on the payload — the
decrypted body equals the original payload. -/
theorem c8_encrypt_decrypt_roundtrip {α : Type}
    (block_enc block_dec : List Nat → List Nat → List Nat)
    (b64_encode : List Nat → String) (b64_decode : String → List Nat)
    (dumps : α → List Nat) (loads : List Nat → Option α)
    (secret_key : String) (P : α)
    (hB64 : ∀ bs, (∀ b ∈ bs, b < 256) → b64_decode (b64_encode bs) = bs)
    (hEncLen : ∀ block, block.length = 8 →
      (block_enc (derive_key secret_key) block).length = 8)
    (hEncBytes : ∀ block, block.length = 8 → (∀ b ∈ block, b < 256) →
      ∀ b ∈ block_enc (derive_key secret_key) block, b < 256)
    (hBlockRT : ∀ block, block.length = 8 → (∀ b ∈ block, b < 256) →
      block_dec (derive_key secret_key) (block_enc (derive_key secret_key) block) = block)
    (hDumpsBytes : ∀ b ∈ dumps P, b < 256)
    (hLoads : loads (dumps P) = some P) :
    decrypt_body true block_dec b64_decode loads secret_key
      ((encrypt_body true block_enc b64_encode dumps secret_key P).cipher_string)
      = some P := by
  show loads (pkcs5_unpad (ecb_apply (block_dec (derive_key secret_key))
    (b64_decode (b64_encode (ecb_apply (block_enc (derive_key secret_key))
      (pkcs5_pad (dumps P))))))) = some P
  rw [hB64 _ (ecb_apply_bytes _ hEncBytes _ (pkcs5_pad_mod (dumps P))
    (pkcs5_pad_bytes _ hDumpsBytes))]
  rw [ecb_roundtrip _ _ hEncLen hBlockRT _ (pkcs5_pad_mod (dumps P))
    (pkcs5_pad_bytes _ hDumpsBytes)]
  rw [pkcs5_roundtrip]
  exact hLoads

theorem char_toNat_ofNat_of_lt (n : Nat) (h : n < 256) : (Char.ofNat n).toNat = n := by
  have hv : n.isValidChar := Or.inl (by omega)
  rw [Char.ofNat, dif_pos hv]
  rfl

theorem map_toNat_ofNat (bs : List Nat) (hb : ∀ b ∈ bs, b < 256) :
    (bs.map Char.ofNat).map Char.toNat = bs := by
  induction bs with
  | nil => rfl
  | cons a l ih =>
    simp only [List.map_cons]
    rw [char_toNat_ofNat_of_lt a (hb a (List.mem_cons_self a l)),
      ih (fun b hmem => hb b (List.mem_cons_of_mem a hmem))]

/-- C8 witness: the roundtrip instantiated with the identity block
cipher, a character-code Base64 stand-in and a trivial serializer. -/
theorem c8_encrypt_decrypt_roundtrip_witness :
    decrypt_body true (fun _ b => b) (fun s => s.data.map Char.toNat)
      (fun _ => some ()) "key"
      ((encrypt_body true (fun _ b => b) (fun bs => String.mk (bs.map Char.ofNat))
        (fun _ => ([] : List Nat)) "key" ()).cipher_string)
      = some () :=
  c8_encrypt_decrypt_roundtrip (fun _ b => b) (fun _ b => b)
    (fun bs => String.mk (bs.map Char.ofNat)) (fun s => s.data.map Char.toNat)
    (fun _ => ([] : List Nat)) (fun _ => some ()) "key" ()
    (fun bs hb => map_toNat_ofNat bs hb)
    (fun _ h => h)
    (fun _ _ hb => hb)
    (fun _ _ _ => rfl)
    (fun b hb => absurd hb (List.not_mem_nil b))
    rfl
